import Mathlib

/-!
# probe-cli: failure taxonomy, trace events and instrumented primitives

A shallow embedding of

* `internal/netxlite/errorsx/internal/generrno/main.go` (the table `Specs` and
  the three generators of `errno_*.go`, `errno.go`, `errno_test.go`),
* `internal/engine/netx/tracex/event.go` (the event kinds, `EventValue` and
  the JSON form that its field tags declare),
* the callers and tests of the bogon resolver, the trace `Saver` and the
  legacy `ErrorWrapperTLSHandshaker`, whose code lives outside the sources,
* `internal/experiment/tlsmiddlebox/syscall_unix.go` (`SetTTL`, `GetSoErr`).
-/

set_option autoImplicit false

namespace ProbeCli

/-! ## strcase (github.com/iancoleman/strcase), used by `ErrorSpec`

The module is a dependency of the generator and is not part of the sources of
the repository; the definitions below follow the algorithm of its functions
`ToSnake` and `ToCamel`. -/

namespace strcase

/-- The byte test `v >= 'A' && v <= 'Z'`. -/
def isCap (v : Char) : Bool := decide ('A' ≤ v) && decide (v ≤ 'Z')

/-- The byte test `v >= 'a' && v <= 'z'`. -/
def isLow (v : Char) : Bool := decide ('a' ≤ v) && decide (v ≤ 'z')

/-- The byte test `v >= '0' && v <= '9'`. -/
def isNum (v : Char) : Bool := decide ('0' ≤ v) && decide (v ≤ '9')

/-- The separator test `v == ' ' || v == '_' || v == '-' || v == '.'`. -/
def isSep (v : Char) : Bool := v == ' ' || v == '_' || v == '-' || v == '.'

/-- The arithmetic `v += 'a'; v -= 'A'` on an upper-case ASCII byte. -/
def lower (v : Char) : Char := Char.ofNat (v.toNat + 'a'.toNat - 'A'.toNat)

/-- The arithmetic `v += 'A'; v -= 'a'` on a lower-case ASCII byte. -/
def upper (v : Char) : Char := Char.ofNat (v.toNat + 'A'.toNat - 'a'.toNat)

/-- White space in the sense of `strings.TrimSpace`, on ASCII input. -/
def isSpace (v : Char) : Bool :=
  v == ' ' || v == '\t' || v == '\n' || v == '\r' || v == Char.ofNat 11 || v == Char.ofNat 12

/-- The function `strings.TrimSpace` on a list of bytes. -/
def trimSpace (s : List Char) : List Char :=
  ((s.dropWhile isSpace).reverse.dropWhile isSpace).reverse

/-- The loop of `ToScreamingDelimited(s, delimiter, 0, screaming)`: `prev` is
`s[i-1]` when `i > 0`, the list is `s[i:]`. The ignore byte is `0`, as `ToSnake`
passes it, so that `prevIgnore` is always false. -/
def delimitedLoop (delimiter : Char) (screaming : Bool) : Option Char → List Char → List Char
  | _, [] => []
  | prev, v0 :: rest =>
    let vIsCap := isCap v0
    let vIsLow := isLow v0
    let v := if vIsLow && screaming then upper v0
             else if vIsCap && !screaming then lower v0 else v0
    let plain : List Char := if isSep v then [delimiter] else [v]
    let out : List Char :=
      match rest with
      | [] => plain
      | next :: _ =>
        let vIsNum := isNum v
        let nextIsCap := isCap next
        let nextIsLow := isLow next
        let nextIsNum := isNum next
        if (vIsCap && (nextIsLow || nextIsNum)) || (vIsLow && (nextIsCap || nextIsNum))
            || (vIsNum && (nextIsCap || nextIsLow)) then
          let prevIsCap := match prev with
            | some p => isCap p
            | none => false
          (if vIsCap && nextIsLow && prevIsCap then [delimiter] else [])
            ++ [v] ++ (if vIsLow || vIsNum || nextIsNum then [delimiter] else [])
        else plain
    out ++ delimitedLoop delimiter screaming (some v0) rest

/-- The function `strcase.ToSnake`: `ToDelimited(s, '_')`, that is
`ToScreamingDelimited(s, '_', 0, false)`. -/
def ToSnake (s : String) : String :=
  String.mk (delimitedLoop '_' false none (trimSpace s.data))

/-- The loop of `toCamelInitCase`: `first` says `i == 0`, `capNext` is the
loop variable of that name. -/
def camelLoop : Bool → Bool → List Char → List Char
  | _, _, [] => []
  | first, capNext, v0 :: rest =>
    let vIsCap := isCap v0
    let vIsLow := isLow v0
    let v := if capNext then (if vIsLow then upper v0 else v0)
             else if first then (if vIsCap then lower v0 else v0) else v0
    if vIsCap || vIsLow then v :: camelLoop false false rest
    else if isNum v then v :: camelLoop false true rest
    else camelLoop false (v == '_' || v == ' ' || v == '-' || v == '.') rest

/-- The function `strcase.ToCamel`: `toCamelInitCase(s, true)`. The table of
configured acronyms holds only `"ID"`, which maps to `"id"`. -/
def ToCamel (s : String) : String :=
  let t := trimSpace s.data
  if t = [] then String.mk t
  else
    let t := if t = ['I', 'D'] then ['i', 'd'] else t
    String.mk (camelLoop true true t)

end strcase

/-! ## generrno: `ErrorSpec` and the table `Specs` -/

/-- ErrorSpec specifies the error we care about. -/
structure ErrorSpec where
  /-- The error name as an errno value (e.g., ECONNREFUSED). -/
  errno : String
  /-- The error name according to OONI. -/
  failure : String
deriving DecidableEq, Repr

namespace ErrorSpec

/-- IsSystemError returns whether this ErrorSpec describes a system error. -/
def IsSystemError (es : ErrorSpec) : Bool := es.errno != ""

/-- AsErrnoName returns the name of the corresponding errno, if this is a
system error, or panics otherwise (`none`). -/
def AsErrnoName (es : ErrorSpec) : Option String :=
  if !es.IsSystemError then none else some es.errno

/-- AsFailureVar returns the name of the failure var. -/
def AsFailureVar (es : ErrorSpec) : String := "Failure" ++ strcase.ToCamel es.failure

/-- AsFailureString returns the OONI failure string. -/
def AsFailureString (es : ErrorSpec) : String := strcase.ToSnake es.failure

end ErrorSpec

/-- NewSystemError constructs a new ErrorSpec representing a system error. -/
def NewSystemError (errno failure : String) : ErrorSpec := { errno := errno, failure := failure }

/-- NewLibraryError constructs a new ErrorSpec representing a library error. -/
def NewLibraryError (failure : String) : ErrorSpec := { errno := "", failure := failure }

/-- Specs contains all the error specs. -/
def Specs : List ErrorSpec := [
  NewSystemError "ECANCELED" "operation_canceled",
  NewSystemError "ECONNREFUSED" "connection_refused",
  NewSystemError "ECONNRESET" "connection_reset",
  NewSystemError "EHOSTUNREACH" "host_unreachable",
  NewSystemError "ETIMEDOUT" "timed_out",
  NewSystemError "EAFNOSUPPORT" "address_family_not_supported",
  NewSystemError "EADDRINUSE" "address_in_use",
  NewSystemError "EADDRNOTAVAIL" "address_not_available",
  NewSystemError "EISCONN" "already_connected",
  NewSystemError "EFAULT" "bad_address",
  NewSystemError "EBADF" "bad_file_descriptor",
  NewSystemError "ECONNABORTED" "connection_aborted",
  NewSystemError "EALREADY" "connection_already_in_progress",
  NewSystemError "EDESTADDRREQ" "destination_address_required",
  NewSystemError "EINTR" "interrupted",
  NewSystemError "EINVAL" "invalid_argument",
  NewSystemError "EMSGSIZE" "message_size",
  NewSystemError "ENETDOWN" "network_down",
  NewSystemError "ENETRESET" "network_reset",
  NewSystemError "ENETUNREACH" "network_unreachable",
  NewSystemError "ENOBUFS" "no_buffer_space",
  NewSystemError "ENOPROTOOPT" "no_protocol_option",
  NewSystemError "ENOTSOCK" "not_a_socket",
  NewSystemError "ENOTCONN" "not_connected",
  NewSystemError "EWOULDBLOCK" "operation_would_block",
  NewSystemError "EACCES" "permission_denied",
  NewSystemError "EPROTONOSUPPORT" "protocol_not_supported",
  NewSystemError "EPROTOTYPE" "wrong_protocol_type",
  NewLibraryError "DNS_bogon_error",
  NewLibraryError "DNS_NXDOMAIN_error",
  NewLibraryError "EOF_error",
  NewLibraryError "generic_timeout_error",
  NewLibraryError "QUIC_incompatible_version",
  NewLibraryError "SSL_failed_handshake",
  NewLibraryError "SSL_invalid_hostname",
  NewLibraryError "SSL_unknown_authority",
  NewLibraryError "SSL_invalid_certificate",
  NewLibraryError "JSON_parse_error"
]

/-! ## Go error values -/

/-- A byte string. -/
abbrev Bytes := List (Fin 256)

/-- An `x509.Certificate`: its raw DER bytes, and whether its field `PublicKey`,
of type `any`, holds the key in its own Go type (`*rsa.PublicKey`, ...), as
`x509.ParseCertificate` leaves it, rather than nil or the untyped value that
`json.Unmarshal` stores in a field of type `any`. -/
structure Certificate where
  Raw : Bytes
  TypedPublicKey : Bool := true
deriving DecidableEq, Repr

/-- A non-nil Go `error` value. The nil error is `none : Option GoError`. -/
inductive GoError where
  /-- A `syscall.Errno` with the given number. -/
  | errno (n : Nat)
  /-- The sentinel `io.EOF`. -/
  | EOF
  /-- The sentinel `context.Canceled`. -/
  | Canceled
  /-- The sentinel `context.DeadlineExceeded`. -/
  | DeadlineExceeded
  /-- An `x509.HostnameError`, which carries the offending certificate. -/
  | HostnameError (cert : Certificate)
  /-- An `x509.UnknownAuthorityError`, which carries the offending certificate. -/
  | UnknownAuthorityError (cert : Certificate)
  /-- An `x509.CertificateInvalidError`, which carries the offending certificate. -/
  | CertificateInvalidError (cert : Certificate)
  /-- A QUIC version negotiation failure. -/
  | VersionNegotiationError
  /-- A `json.SyntaxError`. -/
  | JSONSyntaxError
  /-- Any other leaf error, with its message and its `Timeout()` answer. -/
  | other (msg : String) (timeout : Bool)
  /-- An error with an `Unwrap` method returning `err` (`os.SyscallError`,
  `net.OpError`, `fmt.Errorf("%w")`, ...). -/
  | wrapped (msg : String) (err : GoError)
  /-- An `errorsx.ErrWrapper`, whose `Unwrap` returns `WrappedErr`. -/
  | ErrWrapper (Failure : String) (Operation : String) (WrappedErr : GoError)
deriving DecidableEq, Repr

namespace GoError

/-- The method `Unwrap`, where the error has one. -/
def Unwrap : GoError → Option GoError
  | wrapped _ err => some err
  | ErrWrapper _ _ err => some err
  | _ => none

/-- The call `errors.As(err, &errno)` with `var errno syscall.Errno`: the first
error of the `Unwrap` chain that is a `syscall.Errno`. -/
def asErrno : GoError → Option Nat
  | errno n => some n
  | wrapped _ err => asErrno err
  | ErrWrapper _ _ err => asErrno err
  | _ => none

/-- The call `errors.Is(err, target)`: some error of the `Unwrap` chain of
`err` equals `target`. -/
def errorsIs (target : GoError) : GoError → Bool
  | wrapped msg err => wrapped msg err == target || errorsIs target err
  | ErrWrapper f o err => ErrWrapper f o err == target || errorsIs target err
  | e => e == target

end GoError

/-- The call `errors.As(err, &errno)` on a possibly nil error. -/
def errorsAsErrno : Option GoError → Option Nat
  | none => none
  | some e => e.asErrno

/-! ## generrno: the generated files -/

/-- One line `name = pkg.sel` of the const block of `errno_<kind>.go`. -/
structure ErrnoDecl where
  name : String
  pkg : String
  sel : String
deriving DecidableEq, Repr

/-- One line `name = "value"` of the const block of `errno.go`. -/
structure ConstDecl where
  name : String
  value : String
deriving DecidableEq, Repr

/-- One clause `case label: return result` of the switch of `errno.go`. -/
structure CaseClause where
  label : String
  result : String
deriving DecidableEq, Repr

/-- One assertion `if v := classifySyscallError(arg); v != expect { t.Fatalf }`
of `errno_test.go`. -/
structure TestAssert where
  arg : String
  expect : String
deriving DecidableEq, Repr

/-- The loop of `writeSystemSpecificFile(kind)` over the table: one
`ErrnoDecl` per system error; `none` when `AsErrnoName` panics. -/
def systemSpecificConsts (kind : String) : List ErrorSpec → Option (List ErrnoDecl)
  | [] => some []
  | spec :: rest =>
    if !spec.IsSystemError then systemSpecificConsts kind rest
    else do
      let name ← spec.AsErrnoName
      let sel ← spec.AsErrnoName
      let tail ← systemSpecificConsts kind rest
      pure ({ name := name, pkg := kind, sel := sel } :: tail)

/-- The const block written by `writeSystemSpecificFile(kind)`. -/
def writeSystemSpecificFile (kind : String) : Option (List ErrnoDecl) :=
  systemSpecificConsts kind Specs

/-- The first loop of `writeGenericFile`: the section `System errors`. -/
def systemFailureConsts : List ErrorSpec → List ConstDecl
  | [] => []
  | spec :: rest =>
    if !spec.IsSystemError then systemFailureConsts rest
    else { name := spec.AsFailureVar, value := spec.AsFailureString } :: systemFailureConsts rest

/-- The second loop of `writeGenericFile`: the section `Library errors`. -/
def libraryFailureConsts : List ErrorSpec → List ConstDecl
  | [] => []
  | spec :: rest =>
    if spec.IsSystemError then libraryFailureConsts rest
    else { name := spec.AsFailureVar, value := spec.AsFailureString } :: libraryFailureConsts rest

/-- The third loop of `writeGenericFile`: the clauses of the switch; `none`
when `AsErrnoName` panics. -/
def switchCases : List ErrorSpec → Option (List CaseClause)
  | [] => some []
  | spec :: rest =>
    if !spec.IsSystemError then switchCases rest
    else do
      let label ← spec.AsErrnoName
      let tail ← switchCases rest
      pure ({ label := label, result := spec.AsFailureVar } :: tail)

/-- The contents of `errno.go`: the const block and the switch of
`classifySyscallError`. -/
structure GenericFile where
  consts : List ConstDecl
  cases : List CaseClause
deriving DecidableEq, Repr

/-- The file written by `writeGenericFile`. -/
def writeGenericFile : Option GenericFile := do
  let cases ← switchCases Specs
  pure { consts := systemFailureConsts Specs ++ libraryFailureConsts Specs, cases := cases }

/-- The loop of `writeGenericTestFile`: one assertion per system error. -/
def testAsserts : List ErrorSpec → Option (List TestAssert)
  | [] => some []
  | spec :: rest =>
    if !spec.IsSystemError then testAsserts rest
    else do
      let arg ← spec.AsErrnoName
      let tail ← testAsserts rest
      pure ({ arg := arg, expect := spec.AsFailureVar } :: tail)

/-- The assertions written by `writeGenericTestFile` between the `io.EOF`
check and the `syscall.Errno(0)` check. -/
def writeGenericTestFile : Option (List TestAssert) := testAsserts Specs

/-! ## The generated `classifySyscallError` -/

/-- The value of the constant `name` of `errno_<kind>.go`, where `sys pkg sel`
is the value of `pkg.sel` in `golang.org/x/sys`; `none` when undeclared. -/
def errnoConst (sys : String → String → Nat) : List ErrnoDecl → String → Option Nat
  | [], _ => none
  | d :: rest, name => if d.name = name then some (sys d.pkg d.sel) else errnoConst sys rest name

/-- The value of the string constant `name` of `errno.go`; `none` when
undeclared. -/
def failureConst : List ConstDecl → String → Option String
  | [], _ => none
  | d :: rest, name => if d.name = name then some d.value else failureConst rest name

/-- The statement `switch errno { case ...: return ... }; return ""` of the
generated classifier: the first clause whose label equals `errno` returns. -/
def evalSwitch (sys : String → String → Nat) (platform : List ErrnoDecl)
    (consts : List ConstDecl) (errno : Nat) : List CaseClause → Option String
  | [] => some ""
  | c :: rest => do
    let v ← errnoConst sys platform c.label
    if v = errno then failureConst consts c.result
    else evalSwitch sys platform consts errno rest

/-- The generated function `classifySyscallError` of `errno.go`, compiled
against `errno_<kind>.go`: `none` when a generator panics or the generated
text names an undeclared constant. -/
def classifySyscallError (sys : String → String → Nat) (kind : String)
    (err : Option GoError) : Option String := do
  let platform ← writeSystemSpecificFile kind
  let file ← writeGenericFile
  match errorsAsErrno err with
  | none => pure ""
  | some errno => evalSwitch sys platform file.consts errno file.cases

/-- The errno numbers of `golang.org/x/sys/unix` on linux. -/
def linuxErrno : String → Nat
  | "ECANCELED" => 125 | "ECONNREFUSED" => 111 | "ECONNRESET" => 104
  | "EHOSTUNREACH" => 113 | "ETIMEDOUT" => 110 | "EAFNOSUPPORT" => 97
  | "EADDRINUSE" => 98 | "EADDRNOTAVAIL" => 99 | "EISCONN" => 106
  | "EFAULT" => 14 | "EBADF" => 9 | "ECONNABORTED" => 103
  | "EALREADY" => 114 | "EDESTADDRREQ" => 89 | "EINTR" => 4
  | "EINVAL" => 22 | "EMSGSIZE" => 90 | "ENETDOWN" => 100
  | "ENETRESET" => 102 | "ENETUNREACH" => 101 | "ENOBUFS" => 105
  | "ENOPROTOOPT" => 92 | "ENOTSOCK" => 88 | "ENOTCONN" => 107
  | "EWOULDBLOCK" => 11 | "EACCES" => 13 | "EPROTONOSUPPORT" => 93
  | "EPROTOTYPE" => 91
  | _ => 0

/-- The package `unix` of `golang.org/x/sys` on linux, as a value table. -/
def linuxSys (_pkg : String) (sel : String) : Nat := linuxErrno sel

/-! ## tracex: `EventValue` and the event kinds -/

/-- A `time.Time`: the wall clock instant, as the number of nanoseconds since
the zero time (January 1, year 1, 00:00 UTC), and the monotonic clock reading
that `time.Now()` attaches, `none` when the time has none. The location is
not modelled. -/
structure Time where
  ns : Int := 0
  mono : Option Int := none
deriving DecidableEq, Repr

namespace Time

/-- The method `After`. -/
def After (t u : Time) : Bool :=
  match t.mono, u.mono with
  | some a, some b => decide (b < a)
  | _, _ => decide (u.ns < t.ns)

/-- The method `Sub`, a `time.Duration` in nanoseconds: the difference of the
monotonic clock readings when both times have one, of the wall clock instants
otherwise. -/
def Sub (t u : Time) : Int :=
  match t.mono, u.mono with
  | some a, some b => a - b
  | _, _ => t.ns - u.ns

/-- The method `Add`, which moves the wall clock instant and the monotonic
clock reading alike. -/
def Add (t : Time) (d : Int) : Time := { ns := t.ns + d, mono := t.mono.map (fun m => m + d) }

end Time

/-- An `http.Header`: the keys with their values, in the sorted order of the
keys, in which `json.Marshal` writes a map. -/
abbrev Header := List (String × List String)

/-- EventValue is the value of an event within a trace. A slice, a map or an
interface is an `Option`, `none` being nil, so that an empty but non-nil slice
`some []` differs from the nil slice. The default of each field is its Go
zero value. -/
@[ext] structure EventValue where
  Addresses : Option (List String) := none
  Address : String := ""
  DNSQuery : Option Bytes := none
  DNSReply : Option Bytes := none
  DataIsTruncated : Bool := false
  Data : Option Bytes := none
  Duration : Int := 0
  Err : Option GoError := none
  HTTPHeaders : Option Header := none
  HTTPMethod : String := ""
  HTTPStatusCode : Int := 0
  HTTPURL : String := ""
  Hostname : String := ""
  NoTLSVerify : Bool := false
  NumBytes : Int := 0
  Proto : String := ""
  TLSServerName : String := ""
  TLSCipherSuite : String := ""
  TLSNegotiatedProto : String := ""
  TLSNextProtos : Option (List String) := none
  TLSPeerCerts : Option (List Certificate) := none
  TLSVersion : String := ""
  Time : Time := {}
  Transport : String := ""
deriving DecidableEq, Repr

/-- Modelled from the spec: the constant `netxlite.ConnectOperation`, which is
declared outside the sources; the spec names the event `connect`. -/
def ConnectOperation : String := "connect"

/-- Modelled from the spec: the constant `netxlite.ReadOperation`, which is
declared outside the sources; the spec names the event `read`. -/
def ReadOperation : String := "read"

/-- Modelled from the spec: the constant `netxlite.WriteOperation`, which is
declared outside the sources; the spec names the event `write`. -/
def WriteOperation : String := "write"

/-- Modelled from the spec: the constant `netxlite.ReadFromOperation`, which is
declared outside the sources; the spec names the event `read_from`. -/
def ReadFromOperation : String := "read_from"

/-- Modelled from the spec: the constant `netxlite.WriteToOperation`, which is
declared outside the sources; the spec names the event `write_to`. -/
def WriteToOperation : String := "write_to"

/-- Event is one of the events within a trace: one constructor for each Go type
that implements the interface, holding the field `V`. -/
inductive Event where
  | EventTLSHandshakeStart (V : EventValue)
  | EventTLSHandshakeDone (V : EventValue)
  | EventResolveStart (V : EventValue)
  | EventResolveDone (V : EventValue)
  | EventDNSRoundTripStart (V : EventValue)
  | EventDNSRoundTripDone (V : EventValue)
  | EventQUICHandshakeStart (V : EventValue)
  | EventQUICHandshakeDone (V : EventValue)
  | EventWriteToOperation (V : EventValue)
  | EventReadFromOperation (V : EventValue)
  | EventHTTPRequestMetadata (V : EventValue)
  | EventHTTPResponseMetadata (V : EventValue)
  | EventHTTPTransactionStart (V : EventValue)
  | EventHTTPTransactionDone (V : EventValue)
  | EventHTTPRequestBodySnapshot (V : EventValue)
  | EventHTTPResponseBodySnapshot (V : EventValue)
  | EventConnectOperation (V : EventValue)
  | EventReadOperation (V : EventValue)
  | EventWriteOperation (V : EventValue)
deriving DecidableEq, Repr

namespace Event

/-- Value returns the event value. -/
def Value : Event → EventValue
  | EventTLSHandshakeStart V => V
  | EventTLSHandshakeDone V => V
  | EventResolveStart V => V
  | EventResolveDone V => V
  | EventDNSRoundTripStart V => V
  | EventDNSRoundTripDone V => V
  | EventQUICHandshakeStart V => V
  | EventQUICHandshakeDone V => V
  | EventWriteToOperation V => V
  | EventReadFromOperation V => V
  | EventHTTPRequestMetadata V => V
  | EventHTTPResponseMetadata V => V
  | EventHTTPTransactionStart V => V
  | EventHTTPTransactionDone V => V
  | EventHTTPRequestBodySnapshot V => V
  | EventHTTPResponseBodySnapshot V => V
  | EventConnectOperation V => V
  | EventReadOperation V => V
  | EventWriteOperation V => V

/-- Name returns the event name. -/
def Name : Event → String
  | EventTLSHandshakeStart _ => "tls_handshake_start"
  | EventTLSHandshakeDone _ => "tls_handshake_done"
  | EventResolveStart _ => "resolve_start"
  | EventResolveDone _ => "resolve_done"
  | EventDNSRoundTripStart _ => "dns_round_trip_start"
  | EventDNSRoundTripDone _ => "dns_round_trip_done"
  | EventQUICHandshakeStart _ => "quic_handshake_start"
  | EventQUICHandshakeDone _ => "quic_handshake_done"
  | EventWriteToOperation _ => WriteToOperation
  | EventReadFromOperation _ => ReadFromOperation
  | EventHTTPRequestMetadata _ => "http_request_metadata"
  | EventHTTPResponseMetadata _ => "http_response_metadata"
  | EventHTTPTransactionStart _ => "http_transaction_start"
  | EventHTTPTransactionDone _ => "http_transaction_done"
  | EventHTTPRequestBodySnapshot _ => "http_request_body_snapshot"
  | EventHTTPResponseBodySnapshot _ => "http_response_body_snapshot"
  | EventConnectOperation _ => ConnectOperation
  | EventReadOperation _ => ReadOperation
  | EventWriteOperation _ => WriteOperation

/-- The event kinds in the order the spec lists their names, each holding `V`. -/
def kinds (V : EventValue) : List Event := [
  EventResolveStart V, EventResolveDone V,
  EventDNSRoundTripStart V, EventDNSRoundTripDone V,
  EventConnectOperation V,
  EventTLSHandshakeStart V, EventTLSHandshakeDone V,
  EventQUICHandshakeStart V, EventQUICHandshakeDone V,
  EventReadOperation V, EventWriteOperation V,
  EventReadFromOperation V, EventWriteToOperation V,
  EventHTTPTransactionStart V, EventHTTPTransactionDone V,
  EventHTTPRequestMetadata V, EventHTTPResponseMetadata V,
  EventHTTPRequestBodySnapshot V, EventHTTPResponseBodySnapshot V
]

end Event

/-- The closed vocabulary of event names, as the spec lists it. -/
def eventVocabulary : List String := [
  "resolve_start", "resolve_done", "dns_round_trip_start", "dns_round_trip_done",
  "connect", "tls_handshake_start", "tls_handshake_done",
  "quic_handshake_start", "quic_handshake_done", "read", "write",
  "read_from", "write_to", "http_transaction_start", "http_transaction_done",
  "http_request_metadata", "http_response_metadata",
  "http_request_body_snapshot", "http_response_body_snapshot"
]

/-! ## The failure codes and the classification of errors -/

/-- The constant `FailureDNSBogonError` of the generated `errno.go`. -/
def FailureDNSBogonError : String := (NewLibraryError "DNS_bogon_error").AsFailureString

/-- The constant `FailureEOFError` of the generated `errno.go`. -/
def FailureEOFError : String := (NewLibraryError "EOF_error").AsFailureString

/-- The constant `FailureGenericTimeoutError` of the generated `errno.go`. -/
def FailureGenericTimeoutError : String :=
  (NewLibraryError "generic_timeout_error").AsFailureString

/-- The constant `FailureOperationCanceled` of the generated `errno.go`. -/
def FailureOperationCanceled : String :=
  (NewSystemError "ECANCELED" "operation_canceled").AsFailureString

/-- Modelled from the spec: the table of well-known library errors of rule 4 of
the FailureTaxonomy, which lives outside the sources: the first error of the
`Unwrap` chain with a designated code decides. -/
def libraryFailure : GoError → Option String
  | GoError.EOF => some FailureEOFError
  | GoError.DeadlineExceeded => some FailureGenericTimeoutError
  | GoError.HostnameError _ => some (NewLibraryError "SSL_invalid_hostname").AsFailureString
  | GoError.UnknownAuthorityError _ =>
    some (NewLibraryError "SSL_unknown_authority").AsFailureString
  | GoError.CertificateInvalidError _ =>
    some (NewLibraryError "SSL_invalid_certificate").AsFailureString
  | GoError.VersionNegotiationError =>
    some (NewLibraryError "QUIC_incompatible_version").AsFailureString
  | GoError.JSONSyntaxError => some (NewLibraryError "JSON_parse_error").AsFailureString
  | GoError.wrapped _ err => libraryFailure err
  | GoError.ErrWrapper _ _ err => libraryFailure err
  | _ => none

/-- The method `Timeout()` of the first leaf of the `Unwrap` chain. -/
def indicatesDeadline : GoError → Bool
  | GoError.other _ timeout => timeout
  | GoError.DeadlineExceeded => true
  | GoError.wrapped _ err => indicatesDeadline err
  | GoError.ErrWrapper _ _ err => indicatesDeadline err
  | _ => false

/-- Modelled from the spec: the classifier `Classify` of the FailureTaxonomy,
which lives outside the sources, with its rules in priority order: a nil error
has no code; a context cancellation is `operation_canceled`; an errno is looked
up in the generated table; then come the well-known library errors; an
unmatched error that indicates a deadline is `generic_timeout_error`;
anything else yields no classification. -/
def Classify (sys : String → String → Nat) (kind : String) : Option GoError → Option String
  | none => none
  | some e =>
    if GoError.errorsIs GoError.Canceled e then some FailureOperationCanceled
    else
      match classifySyscallError sys kind (some e) with
      | some code =>
        if code ≠ "" then some code
        else
          match libraryFailure e with
          | some lib => some lib
          | none => if indicatesDeadline e then some FailureGenericTimeoutError else none
      | none => none

/-- Modelled from the spec: the generic fallback code that a decorator uses
when classification yields nothing. -/
def FailureUnknown : String := "unknown_failure"

/-- Modelled from the spec: the failure code a decorator attaches to a non-nil
error: its classification, or the generic fallback code. -/
def classifyOrFallback (sys : String → String → Nat) (kind : String) (e : GoError) : String :=
  match Classify sys kind (some e) with
  | some code => code
  | none => FailureUnknown

/-! ## The bogon resolver -/

/-- A resolver: the method `LookupHost` applied to a hostname returns the
addresses or an error. -/
abbrev Resolver := String → Except GoError (List String)

/-- Modelled from the spec: the name of the resolve operation. -/
def ResolveOperation : String := "resolve"

/-- Modelled from the spec: the classified error of the BogonSafetyPolicy, an
`ErrWrapper` whose failure is `dns_bogon_error`. -/
def ErrDNSBogon : GoError :=
  GoError.ErrWrapper FailureDNSBogonError ResolveOperation
    (GoError.other "dns: detected bogon address" false)

/-- Modelled from the spec: the resolver decorator of the BogonSafetyPolicy,
which lives outside the sources (section 4.5): after the inner resolve
succeeds every returned address is checked, any bogon fails the resolution
with `dns_bogon_error`, and a failure of the inner resolve propagates
unchanged. The test `isBogon` for one address is a parameter. -/
def bogonResolver (isBogon : String → Bool) (inner : Resolver) : Resolver :=
  fun hostname =>
    match inner hostname with
    | Except.error e => Except.error e
    | Except.ok addrs => if addrs.any isBogon then Except.error ErrDNSBogon else Except.ok addrs

/-- Modelled from the spec: `netxlite.MaybeWrapWithBogonResolver(enabled, reso)`,
which lives outside the sources: the BogonSafetyPolicy around `reso` when
enabled, `reso` itself otherwise. -/
def MaybeWrapWithBogonResolver (isBogon : String → Bool) (enabled : Bool) (reso : Resolver) :
    Resolver :=
  if enabled then bogonResolver isBogon reso else reso

/-- The resolver that the factory `NewHTTPClient` of `oohelperd` hands to
`netxlite.NewHTTPClientWithResolver`; `newResolver` is the DNS-over-HTTPS
resolver of `newResolver(logger)`. -/
def NewHTTPClientResolver (isBogon : String → Bool) (newResolver : Resolver) : Resolver :=
  MaybeWrapWithBogonResolver isBogon true newResolver

/-- The resolver that the factory `NewHTTP3Client` of `oohelperd` hands to
`netxlite.NewHTTP3ClientWithResolver`. -/
def NewHTTP3ClientResolver (isBogon : String → Bool) (newResolver : Resolver) : Resolver :=
  MaybeWrapWithBogonResolver isBogon true newResolver

/-- A decimal number of one to three digits, at most 255. -/
def parseOctet (cs : List Char) : Option Nat :=
  if cs.length = 0 ∨ 3 < cs.length then none
  else if cs.all Char.isDigit then
    let n := cs.foldl (fun acc c => 10 * acc + (c.toNat - '0'.toNat)) 0
    if n ≤ 255 then some n else none
  else none

/-- The fields of a list of characters between dots. -/
def splitDots : List Char → List (List Char)
  | [] => [[]]
  | c :: rest =>
    match splitDots rest with
    | [] => [[c]]
    | f :: fs => if c = '.' then [] :: f :: fs else (c :: f) :: fs

/-- A dotted-quad IPv4 address. -/
def parseIPv4 (s : String) : Option (Nat × Nat × Nat × Nat) :=
  match (splitDots s.data).map parseOctet with
  | [some a, some b, some c, some d] => some (a, b, c, d)
  | _ => none

/-- Modelled from the spec: the IPv4 part of the bogon table, which lives
outside the sources: the private ranges of RFC 1918, loopback, link-local,
multicast and the reserved and special-use ranges. A string that is not a
dotted quad is left to the IPv6 part, which is not modelled. -/
def isBogonIPv4 (address : String) : Bool :=
  match parseIPv4 address with
  | none => false
  | some (a, b, c, _) =>
    a = 0 || a = 10 || a = 127
    || (a = 100 && 64 ≤ b && b ≤ 127)
    || (a = 169 && b = 254)
    || (a = 172 && 16 ≤ b && b ≤ 31)
    || (a = 192 && b = 0 && (c = 0 || c = 2))
    || (a = 192 && b = 168)
    || (a = 198 && (b = 18 || b = 19))
    || (a = 198 && b = 51 && c = 100)
    || (a = 203 && b = 0 && c = 113)
    || 224 ≤ a

/-! ## The trace `Saver` and the TLS handshakers -/

/-- Modelled from the spec: the TraceRecorder `Saver` (section 4.3), which
lives outside the sources: an append-only ordered log; `{}` is the fresh
`&Saver{}` of the tests. -/
structure Saver where
  ops : List Event := []
deriving DecidableEq, Repr

namespace Saver

/-- Modelled from the spec: `Append(event)` adds one event at the end of the log. -/
def Append (s : Saver) (ev : Event) : Saver := { ops := s.ops ++ [ev] }

/-- Modelled from the spec: `Read()` returns the events in log order. -/
def Read (s : Saver) : List Event := s.ops

end Saver

/-- The fields of `tls.Config` that the handshakers use. -/
structure TLSConfig where
  ServerName : String := ""
  NextProtos : Option (List String) := none
  InsecureSkipVerify : Bool := false
deriving DecidableEq, Repr

/-- The fields of `tls.ConnectionState` that the handshakers use. -/
structure ConnectionState where
  Version : String := ""
  CipherSuite : String := ""
  NegotiatedProtocol : String := ""
  PeerCertificates : Option (List Certificate) := none
deriving DecidableEq, Repr

/-- A `net.Conn`, identified by its remote address. -/
structure Conn where
  RemoteAddr : String
deriving DecidableEq, Repr

/-- What `Handshake` returns: the TLS connection (`none` is nil), the
connection state and the error (`none` is nil). -/
structure HandshakeResult where
  conn : Option Conn
  state : ConnectionState
  err : Option GoError
deriving DecidableEq, Repr

/-- A `model.TLSHandshaker`: the method `Handshake(ctx, conn, config)`. -/
abbrev TLSHandshaker := Conn → TLSConfig → HandshakeResult

/-- Modelled from the spec: the constant `errorsx.TLSHandshakeOperation`, which
is declared outside the sources. -/
def TLSHandshakeOperation : String := "tls_handshake"

/-- The certificate carried by the first x509 verification error of the
`Unwrap` chain. -/
def verificationCert : GoError → Option Certificate
  | GoError.HostnameError cert => some cert
  | GoError.UnknownAuthorityError cert => some cert
  | GoError.CertificateInvalidError cert => some cert
  | GoError.wrapped _ err => verificationCert err
  | GoError.ErrWrapper _ _ err => verificationCert err
  | _ => none

/-- Modelled from the spec: the peer certificates known when the handshake
returns: on a certificate verification failure the certificate that the error
carries ("whatever metadata was available before failure"), otherwise the
chain of the connection state. -/
def tlsPeerCerts (state : ConnectionState) (err : Option GoError) : Option (List Certificate) :=
  match err with
  | none => state.PeerCertificates
  | some e =>
    match verificationCert e with
    | some cert => some [cert]
    | none => state.PeerCertificates

/-- Modelled from the spec: the handshaker returned by `Saver.WrapTLSHandshaker`
(section 4.4 and the tests of `tls_test.go`), which lives outside the sources.
It appends a `tls_handshake_start` event with the server name, the
next-protocols list and the time `start` read before the call, invokes the
inner handshaker, which takes `elapsed` nanoseconds of the monotonic clock,
appends a `tls_handshake_done` event with the duration, the classified error
(nil on success), the no-verify flag and the TLS metadata known at that
point, and returns what the inner handshaker returned. -/
def SaverTLSHandshaker (sys : String → String → Nat) (kind : String) (inner : TLSHandshaker)
    (saver : Saver) (start : Time) (elapsed : Nat) (conn : Conn) (config : TLSConfig) :
    Saver × HandshakeResult :=
  let saver := saver.Append (Event.EventTLSHandshakeStart {
    TLSNextProtos := config.NextProtos,
    TLSServerName := config.ServerName,
    Time := start })
  let r := inner conn config
  let stop := start.Add elapsed
  let saver := saver.Append (Event.EventTLSHandshakeDone {
    Duration := stop.Sub start,
    Err := r.err.map (fun e =>
      GoError.ErrWrapper (classifyOrFallback sys kind e) TLSHandshakeOperation e),
    NoTLSVerify := config.InsecureSkipVerify,
    TLSCipherSuite := r.state.CipherSuite,
    TLSNegotiatedProto := r.state.NegotiatedProtocol,
    TLSNextProtos := config.NextProtos,
    TLSPeerCerts := tlsPeerCerts r.state r.err,
    TLSServerName := config.ServerName,
    TLSVersion := r.state.Version,
    Time := stop })
  (saver, r)

/-- Modelled from the spec: the method `Handshake` of the legacy
`ErrorWrapperTLSHandshaker`, of which the sources hold only the test: a
failure of the inner handshaker is returned with a nil connection, wrapped
in an `ErrWrapper` that records the classified failure and the operation. -/
def ErrorWrapperTLSHandshaker (sys : String → String → Nat) (kind : String)
    (inner : TLSHandshaker) : TLSHandshaker :=
  fun conn config =>
    let r := inner conn config
    match r.err with
    | some e =>
      { conn := none, state := {},
        err := some (GoError.ErrWrapper (classifyOrFallback sys kind e) TLSHandshakeOperation e) }
    | none => r

/-! ## The JSON form of `EventValue` -/

/-- An encoder and a decoder between the values of one Go type and the JSON
values `J`: `enc` returns `none` when `json.Marshal` reports an error, `dec`
returns `none` when `json.Unmarshal` reports an error. -/
structure Codec (J : Type) (α : Type) where
  enc : α → Option J
  dec : J → Option α

/-- The encoders and decoders of `encoding/json` for the field types of
`EventValue`. -/
structure ValueCodecs (J : Type) where
  string : Codec J String
  bool : Codec J Bool
  int : Codec J Int
  strings : Codec J (Option (List String))
  bytes : Codec J (Option Bytes)
  error : Codec J (Option GoError)
  header : Codec J (Option Header)
  certs : Codec J (Option (List Certificate))
  time : Codec J Time

/-- One step of `json.Unmarshal` into an `EventValue`: the member is decoded
into the field of its name; a member of another name is skipped. -/
def storeField {J : Type} (cs : ValueCodecs J) (v : EventValue) (member : String × J) :
    Option EventValue :=
  if member.1 = "Addresses" then
    (cs.strings.dec member.2).map (fun x => { v with Addresses := x })
  else if member.1 = "Address" then
    (cs.string.dec member.2).map (fun x => { v with Address := x })
  else if member.1 = "DNSQuery" then
    (cs.bytes.dec member.2).map (fun x => { v with DNSQuery := x })
  else if member.1 = "DNSReply" then
    (cs.bytes.dec member.2).map (fun x => { v with DNSReply := x })
  else if member.1 = "DataIsTruncated" then
    (cs.bool.dec member.2).map (fun x => { v with DataIsTruncated := x })
  else if member.1 = "Data" then
    (cs.bytes.dec member.2).map (fun x => { v with Data := x })
  else if member.1 = "Duration" then
    (cs.int.dec member.2).map (fun x => { v with Duration := x })
  else if member.1 = "Err" then
    (cs.error.dec member.2).map (fun x => { v with Err := x })
  else if member.1 = "HTTPHeaders" then
    (cs.header.dec member.2).map (fun x => { v with HTTPHeaders := x })
  else if member.1 = "HTTPMethod" then
    (cs.string.dec member.2).map (fun x => { v with HTTPMethod := x })
  else if member.1 = "HTTPStatusCode" then
    (cs.int.dec member.2).map (fun x => { v with HTTPStatusCode := x })
  else if member.1 = "HTTPURL" then
    (cs.string.dec member.2).map (fun x => { v with HTTPURL := x })
  else if member.1 = "Hostname" then
    (cs.string.dec member.2).map (fun x => { v with Hostname := x })
  else if member.1 = "NoTLSVerify" then
    (cs.bool.dec member.2).map (fun x => { v with NoTLSVerify := x })
  else if member.1 = "NumBytes" then
    (cs.int.dec member.2).map (fun x => { v with NumBytes := x })
  else if member.1 = "Proto" then
    (cs.string.dec member.2).map (fun x => { v with Proto := x })
  else if member.1 = "TLSServerName" then
    (cs.string.dec member.2).map (fun x => { v with TLSServerName := x })
  else if member.1 = "TLSCipherSuite" then
    (cs.string.dec member.2).map (fun x => { v with TLSCipherSuite := x })
  else if member.1 = "TLSNegotiatedProto" then
    (cs.string.dec member.2).map (fun x => { v with TLSNegotiatedProto := x })
  else if member.1 = "TLSNextProtos" then
    (cs.strings.dec member.2).map (fun x => { v with TLSNextProtos := x })
  else if member.1 = "TLSPeerCerts" then
    (cs.certs.dec member.2).map (fun x => { v with TLSPeerCerts := x })
  else if member.1 = "TLSVersion" then
    (cs.string.dec member.2).map (fun x => { v with TLSVersion := x })
  else if member.1 = "Time" then
    (cs.time.dec member.2).map (fun x => { v with Time := x })
  else if member.1 = "Transport" then
    (cs.string.dec member.2).map (fun x => { v with Transport := x })
  else some v

/-- The all-lower-case form of a name: every upper-case ASCII letter replaced
by its lower-case letter, every other character kept. -/
def lowerSnake (name : String) : String := String.mk (name.data.map Char.toLower)

/-- A name already in lower snake case: lower-case ASCII letters and underscores. -/
def isLowerSnake (name : String) : Bool :=
  name.data.all (fun c => strcase.isLow c || c == '_')

/-- The codes that the spec enumerates as examples of the closed set of
failure codes (section 3, FailureCode). -/
def specFailureCodes : List String := [
  "connection_refused", "connection_reset", "timed_out", "dns_bogon_error",
  "dns_nxdomain_error", "eof_error", "ssl_invalid_hostname", "ssl_unknown_authority",
  "ssl_invalid_certificate", "ssl_failed_handshake", "quic_incompatible_version",
  "generic_timeout_error", "json_parse_error", "connection_refused", "host_unreachable",
  "address_in_use", "permission_denied"
]

/-! ## tlsmiddlebox: the socket options of `dialerTTLWrapperConn` -/

/-- A `syscall.RawConn`: the descriptor, whether `Control` gets to invoke its
callback on the descriptor, and the error that `Control` returns. -/
structure RawConn where
  fd : Nat
  invokes : Bool
  controlErr : Option GoError
deriving DecidableEq, Repr

namespace RawConn

/-- The method `Control(f)`: the callback, which assigns to variables of the
caller that make up the state `σ`, is invoked on the descriptor or not, and
the error of `Control` is returned with the state. -/
def Control {σ : Type} (rawConn : RawConn) (f : Nat → σ → σ) (vars : σ) : σ × Option GoError :=
  (if rawConn.invokes then f rawConn.fd vars else vars, rawConn.controlErr)

end RawConn

/-- A `net.TCPConn`: what its method `SyscallConn` returns. -/
structure TCPConn where
  SyscallConn : Except GoError RawConn

/-- A `net.Conn` as the type assertion `conn.(*net.TCPConn)` sees it. -/
inductive NetConn where
  | tcp (tcpConn : TCPConn)
  | other (network : String)

/-- The type `dialerTTLWrapperConn`, which embeds a `net.Conn`. -/
structure dialerTTLWrapperConn where
  Conn : NetConn

/-- SetTTL sets the IP TTL field for the underlying net.TCPConn. The package
variable `errInvalidConnWrapper` is declared outside the sources and the
system call `syscall.SetsockoptInt(fd, level, opt, value)` belongs to the
platform: both are parameters. -/
def dialerTTLWrapperConn.SetTTL (errInvalidConnWrapper : GoError)
    (SetsockoptInt : Nat → String → String → Int → Option GoError)
    (c : dialerTTLWrapperConn) (ttl : Int) : Option GoError :=
  let conn := c.Conn
  match conn with
  | NetConn.other _ => some errInvalidConnWrapper
  | NetConn.tcp tcpConn =>
    match tcpConn.SyscallConn with
    | Except.error err => some err
    | Except.ok rawConn =>
      let (err, rawErr) := rawConn.Control
        (fun fd (_ : Option GoError) => SetsockoptInt fd "IPPROTO_IP" "IP_TTL" ttl) none
      match err with
      | some e => some e
      | none => rawErr

/-- GetSoErr fetches the SO_ERROR value to look for soft ICMP errors in TCP.
The results are `(errno, err)`; the callback assigns to both named results.
The package variable `errInvalidConnWrapper` and the system call
`syscall.GetsockoptInt(fd, level, opt)` are parameters. -/
def dialerTTLWrapperConn.GetSoErr (errInvalidConnWrapper : GoError)
    (GetsockoptInt : Nat → String → String → Int × Option GoError)
    (c : dialerTTLWrapperConn) : Int × Option GoError :=
  let conn := c.Conn
  match conn with
  | NetConn.other _ => (0, some errInvalidConnWrapper)
  | NetConn.tcp tcpConn =>
    match tcpConn.SyscallConn with
    | Except.error _ => (0, some errInvalidConnWrapper)
    | Except.ok rawConn =>
      let (results, rawErr) := rawConn.Control
        (fun fd (_ : Int × Option GoError) => GetsockoptInt fd "SOL_SOCKET" "SO_ERROR")
        ((0 : Int), (none : Option GoError))
      match rawErr with
      | some r => (0, some r)
      | none => results

/-! # Theorems -/

/-! ## The generators on an arbitrary table -/

/-- The const block of `errno_<kind>.go` lists the system errors in table order. -/
theorem systemSpecificConsts_eq (kind : String) (specs : List ErrorSpec) :
    systemSpecificConsts kind specs
      = some ((specs.filter (fun s => s.IsSystemError)).map
          (fun s => { name := s.errno, pkg := kind, sel := s.errno })) := by
  induction specs with
  | nil => rfl
  | cons s rest ih =>
    by_cases h : s.IsSystemError = true
    · simp [systemSpecificConsts, ErrorSpec.AsErrnoName, h, ih]
    · simp [systemSpecificConsts, h, ih]

/-- The switch of `errno.go` has one clause per system error, in table order. -/
theorem switchCases_eq (specs : List ErrorSpec) :
    switchCases specs
      = some ((specs.filter (fun s => s.IsSystemError)).map
          (fun s => { label := s.errno, result := s.AsFailureVar })) := by
  induction specs with
  | nil => rfl
  | cons s rest ih =>
    by_cases h : s.IsSystemError = true
    · simp [switchCases, ErrorSpec.AsErrnoName, h, ih]
    · simp [switchCases, h, ih]

/-- Every errno constant of the platform file evaluates to the platform value
of the name it is declared with. -/
theorem errnoConst_map (sys : String → String → Nat) (kind : String)
    (l : List ErrorSpec) (s : ErrorSpec) (hs : s ∈ l) :
    errnoConst sys (l.map (fun s => { name := s.errno, pkg := kind, sel := s.errno })) s.errno
      = some (sys kind s.errno) := by
  induction l with
  | nil => cases hs
  | cons a rest ih =>
    by_cases h : a.errno = s.errno
    · simp [errnoConst, h]
    · have hmem : s ∈ rest := by
        rcases List.mem_cons.mp hs with h1 | h1
        · exact absurd (by rw [h1]) h
        · exact h1
      simp [errnoConst, h, ih hmem]

/-- The switch returns the constant of the first clause whose label has the
value of `errno`, and the empty string when there is none. -/
theorem evalSwitch_map (sys : String → String → Nat) (kind : String)
    (platform : List ErrnoDecl) (consts : List ConstDecl) (errno : Nat) (l : List ErrorSpec)
    (hc : ∀ a ∈ l, errnoConst sys platform a.errno = some (sys kind a.errno)) :
    ((∀ a ∈ l, sys kind a.errno ≠ errno) ∧
      evalSwitch sys platform consts errno
        (l.map (fun s => { label := s.errno, result := s.AsFailureVar })) = some "")
    ∨ ∃ s ∈ l, sys kind s.errno = errno ∧
      evalSwitch sys platform consts errno
        (l.map (fun s => { label := s.errno, result := s.AsFailureVar }))
        = failureConst consts s.AsFailureVar := by
  induction l with
  | nil => exact Or.inl ⟨by simp, rfl⟩
  | cons a rest ih =>
    have ha := hc a (List.mem_cons_self a rest)
    by_cases h : sys kind a.errno = errno
    · refine Or.inr ⟨a, List.mem_cons_self a rest, h, ?_⟩
      simp [evalSwitch, ha, h]
    · rcases ih (fun b hb => hc b (List.mem_cons_of_mem a hb)) with ⟨hall, hev⟩ | ⟨s, hs, hse, hev⟩
      · refine Or.inl ⟨?_, ?_⟩
        · intro b hb
          rcases List.mem_cons.mp hb with h1 | h1
          · rw [h1]; exact h
          · exact hall b h1
        · simp [evalSwitch, ha, h, hev]
      · refine Or.inr ⟨s, List.mem_cons_of_mem a hs, hse, ?_⟩
        simp [evalSwitch, ha, h, hev]

/-- The generated classifier, with both generators evaluated on `Specs`. -/
theorem classifySyscallError_eq (sys : String → String → Nat) (kind : String)
    (err : Option GoError) :
    classifySyscallError sys kind err =
      match errorsAsErrno err with
      | none => some ""
      | some errno =>
        evalSwitch sys
          ((Specs.filter (fun s => s.IsSystemError)).map
            (fun s => { name := s.errno, pkg := kind, sel := s.errno }))
          (systemFailureConsts Specs ++ libraryFailureConsts Specs) errno
          ((Specs.filter (fun s => s.IsSystemError)).map
            (fun s => { label := s.errno, result := s.AsFailureVar })) := by
  simp only [classifySyscallError, writeSystemSpecificFile, writeGenericFile,
    systemSpecificConsts_eq, switchCases_eq]
  cases errorsAsErrno err <;> rfl

/-- Every failure variable of the table is declared in the const block of
`errno.go` with the failure string of its entry. -/
theorem failureConst_Specs :
    ∀ s ∈ Specs, failureConst (systemFailureConsts Specs ++ libraryFailureConsts Specs)
      s.AsFailureVar = some s.AsFailureString := by
  decide

/-- Two system entries of the table with the same errno name are the same. -/
theorem Specs_errno_unique :
    ∀ a ∈ Specs, ∀ b ∈ Specs, a.IsSystemError = true → b.IsSystemError = true →
      a.errno = b.errno → a = b := by
  decide

/-- No failure string of the table is empty. -/
theorem Specs_failure_nonempty : ∀ s ∈ Specs, s.AsFailureString ≠ "" := by
  decide

/-- The result of the classifier on an error that unwraps to `errno`. -/
theorem classifySyscallError_cases (sys : String → String → Nat) (kind : String)
    (err : Option GoError) (errno : Nat) (herr : errorsAsErrno err = some errno) :
    ((∀ a ∈ Specs, a.IsSystemError = true → sys kind a.errno ≠ errno) ∧
      classifySyscallError sys kind err = some "")
    ∨ ∃ s ∈ Specs, s.IsSystemError = true ∧ sys kind s.errno = errno ∧
      classifySyscallError sys kind err = some s.AsFailureString := by
  rw [classifySyscallError_eq, herr]
  show (_ ∧ evalSwitch _ _ _ _ _ = _) ∨ ∃ s ∈ Specs, _ ∧ _ ∧ evalSwitch _ _ _ _ _ = _
  have hc : ∀ a ∈ Specs.filter (fun s => s.IsSystemError),
      errnoConst sys ((Specs.filter (fun s => s.IsSystemError)).map
        (fun s => { name := s.errno, pkg := kind, sel := s.errno })) a.errno
        = some (sys kind a.errno) :=
    fun a ha => errnoConst_map sys kind _ a ha
  rcases evalSwitch_map sys kind _ (systemFailureConsts Specs ++ libraryFailureConsts Specs)
      errno _ hc with ⟨hall, hev⟩ | ⟨s, hs, hse, hev⟩
  · refine Or.inl ⟨fun a ha hsys => hall a (List.mem_filter.mpr ⟨ha, by simpa using hsys⟩), hev⟩
  · have hs2 := List.mem_filter.mp hs
    refine Or.inr ⟨s, hs2.1, by simpa using hs2.2, hse, ?_⟩
    rw [hev, failureConst_Specs s hs2.1]

/-! ## C1 -/

/-- C1: for every system-error entry of `Specs`, the classifier emitted by
`writeGenericFile` returns exactly the failure string of that entry on every
error that unwraps to the errno of the entry, provided the platform gives the
errno names of the table pairwise distinct numbers (otherwise the generated
switch has a duplicate case and does not compile); there are 28 such entries. -/
theorem classifySyscallError_system_entry (sys : String → String → Nat) (kind : String)
    (hinj : ∀ a ∈ Specs, ∀ b ∈ Specs, a.IsSystemError = true → b.IsSystemError = true →
      sys kind a.errno = sys kind b.errno → a.errno = b.errno) :
    (Specs.filter (fun s => s.IsSystemError)).length = 28 ∧
    ∀ spec ∈ Specs, spec.IsSystemError = true →
      ∀ err : Option GoError, errorsAsErrno err = some (sys kind spec.errno) →
        classifySyscallError sys kind err = some spec.AsFailureString := by
  refine ⟨by decide, ?_⟩
  intro spec hmem hsys err herr
  rcases classifySyscallError_cases sys kind err _ herr with ⟨hall, _⟩ | ⟨s, hs, hssys, hse, hev⟩
  · exact absurd rfl (hall spec hmem hsys)
  · have : s = spec := Specs_errno_unique s hs spec hmem hssys hsys (hinj s hs spec hmem hssys hsys hse)
    rw [hev, this]

/-- C1, witness: on linux the errno numbers of the table are pairwise distinct,
and wrapped `ECONNREFUSED`, `ETIMEDOUT`, `ECANCELED` and `EACCES` errors get
their designated codes. -/
theorem classifySyscallError_system_entry_witness :
    (∀ a ∈ Specs, ∀ b ∈ Specs, a.IsSystemError = true → b.IsSystemError = true →
      linuxSys "unix" a.errno = linuxSys "unix" b.errno → a.errno = b.errno) ∧
    classifySyscallError linuxSys "unix" (some (.wrapped "connect" (.errno 111)))
      = some "connection_refused" ∧
    classifySyscallError linuxSys "unix" (some (.errno 110)) = some "timed_out" ∧
    classifySyscallError linuxSys "unix" (some (.errno 125)) = some "operation_canceled" ∧
    classifySyscallError linuxSys "unix" (some (.ErrWrapper "x" "connect" (.errno 13)))
      = some "permission_denied" :=
  ⟨by decide,
   (classifySyscallError_system_entry linuxSys "unix" (by decide)).2
      (NewSystemError "ECONNREFUSED" "connection_refused") (by decide) (by decide) _ (by decide),
   (classifySyscallError_system_entry linuxSys "unix" (by decide)).2
      (NewSystemError "ETIMEDOUT" "timed_out") (by decide) (by decide) _ (by decide),
   (classifySyscallError_system_entry linuxSys "unix" (by decide)).2
      (NewSystemError "ECANCELED" "operation_canceled") (by decide) (by decide) _ (by decide),
   (classifySyscallError_system_entry linuxSys "unix" (by decide)).2
      (NewSystemError "EACCES" "permission_denied") (by decide) (by decide) _ (by decide)⟩


/-! ## C2 -/

/-- C2: the generated classifier never panics and returns the empty string for
a nil error, for an error that does not unwrap to an errno (such as `io.EOF`)
and for an errno that is the number of no errno name of `Specs` (such as errno
0 where no listed name has the number 0); a non-empty result is the failure
string of a system entry of `Specs` whose errno the error unwraps to. -/
theorem classifySyscallError_unmapped (sys : String → String → Nat) (kind : String)
    (err : Option GoError) :
    (∃ s, classifySyscallError sys kind err = some s) ∧
    classifySyscallError sys kind none = some "" ∧
    classifySyscallError sys kind (some GoError.EOF) = some "" ∧
    (errorsAsErrno err = none → classifySyscallError sys kind err = some "") ∧
    ((∀ spec ∈ Specs, spec.IsSystemError = true →
        errorsAsErrno err ≠ some (sys kind spec.errno)) →
      classifySyscallError sys kind err = some "") ∧
    ((∀ spec ∈ Specs, spec.IsSystemError = true → sys kind spec.errno ≠ 0) →
      classifySyscallError sys kind (some (GoError.errno 0)) = some "") ∧
    (∀ s, classifySyscallError sys kind err = some s → s ≠ "" →
      ∃ spec ∈ Specs, spec.IsSystemError = true ∧
        errorsAsErrno err = some (sys kind spec.errno) ∧ s = spec.AsFailureString) := by
  have hnone : ∀ e : Option GoError, errorsAsErrno e = none →
      classifySyscallError sys kind e = some "" := by
    intro e he
    rw [classifySyscallError_eq, he]
  have hunlisted : ∀ e : Option GoError,
      (∀ spec ∈ Specs, spec.IsSystemError = true →
        errorsAsErrno e ≠ some (sys kind spec.errno)) →
      classifySyscallError sys kind e = some "" := by
    intro e h
    cases he : errorsAsErrno e with
    | none => exact hnone e he
    | some errno =>
      rcases classifySyscallError_cases sys kind e errno he with ⟨_, hev⟩ | ⟨s, hs, hsys, hse, _⟩
      · exact hev
      · exact absurd (by rw [he, hse]) (h s hs hsys)
  refine ⟨?_, hnone none rfl, hnone (some GoError.EOF) rfl, hnone err, hunlisted err, ?_, ?_⟩
  · cases he : errorsAsErrno err with
    | none => exact ⟨"", hnone err he⟩
    | some errno =>
      rcases classifySyscallError_cases sys kind err errno he with ⟨_, hev⟩ | ⟨s, _, _, _, hev⟩
      · exact ⟨"", hev⟩
      · exact ⟨s.AsFailureString, hev⟩
  · intro h
    apply hunlisted
    intro spec hmem hsys heq
    have h0 : (0 : Nat) = sys kind spec.errno := by
      simpa [errorsAsErrno, GoError.asErrno] using heq
    exact h spec hmem hsys h0.symm
  · intro s hs hne
    cases he : errorsAsErrno err with
    | none =>
      rw [hnone err he] at hs
      exact absurd (Option.some.inj hs).symm hne
    | some errno =>
      rcases classifySyscallError_cases sys kind err errno he with ⟨_, hev⟩ | ⟨spec, hmem, hsys, hse, hev⟩
      · rw [hev] at hs
        exact absurd (Option.some.inj hs).symm hne
      · rw [hev] at hs
        exact ⟨spec, hmem, hsys, by rw [hse], (Option.some.inj hs).symm⟩

/-- C2, witness: on linux no errno name of the table has the number 0 and none
has the number 1 (`EPERM`), so errno 0 and a wrapped `EPERM` are left
unclassified. -/
theorem classifySyscallError_unmapped_witness :
    (∀ spec ∈ Specs, spec.IsSystemError = true → linuxSys "unix" spec.errno ≠ 0) ∧
    classifySyscallError linuxSys "unix" (some (GoError.errno 0)) = some "" ∧
    (∀ spec ∈ Specs, spec.IsSystemError = true →
      errorsAsErrno (some (GoError.wrapped "open" (GoError.errno 1)))
        ≠ some (linuxSys "unix" spec.errno)) ∧
    classifySyscallError linuxSys "unix" (some (GoError.wrapped "open" (GoError.errno 1)))
      = some "" :=
  ⟨by decide,
   (classifySyscallError_unmapped linuxSys "unix" none).2.2.2.2.2.1 (by decide),
   by decide,
   (classifySyscallError_unmapped linuxSys "unix"
      (some (GoError.wrapped "open" (GoError.errno 1)))).2.2.2.2.1 (by decide)⟩

/-! ## C3 -/

/-- C3: the failure strings of all entries of `Specs` are pairwise distinct
and non-empty, the errno names of the system entries are pairwise distinct,
and the two timeout codes, both in the table, differ from every code of the
table that starts with `ssl_`, of which there are four. -/
theorem Specs_one_to_one :
    (Specs.map ErrorSpec.AsFailureString).Nodup ∧
    (∀ s ∈ Specs, s.AsFailureString ≠ "") ∧
    ((Specs.filter (fun s => s.IsSystemError)).map (fun s => s.errno)).Nodup ∧
    (∀ a ∈ Specs, ∀ b ∈ Specs, a.AsFailureString = b.AsFailureString → a = b) ∧
    "timed_out" ∈ Specs.map ErrorSpec.AsFailureString ∧
    "generic_timeout_error" ∈ Specs.map ErrorSpec.AsFailureString ∧
    (Specs.filter (fun s => "ssl_".data <+: s.AsFailureString.data)).map
        ErrorSpec.AsFailureString
      = ["ssl_failed_handshake", "ssl_invalid_hostname", "ssl_unknown_authority",
         "ssl_invalid_certificate"] ∧
    (∀ s ∈ Specs, "ssl_".data <+: s.AsFailureString.data →
      s.AsFailureString ≠ "timed_out" ∧ s.AsFailureString ≠ "generic_timeout_error") := by
  refine ⟨by decide, by decide, by decide, by decide, by decide, by decide, by decide, by decide⟩

/-! ## C4 -/

/-- C4: there are 19 event kinds; every event is one of them and its `Name()`
does not depend on its payload; listed kind by kind the names are exactly the
closed vocabulary of the spec, whose 19 names are pairwise distinct, so that
two events have the same name only when they are of the same kind. -/
theorem Event_Name_vocabulary (V W : EventValue) (ev ev2 : Event) :
    (Event.kinds V).length = 19 ∧
    (Event.kinds V).map Event.Name = eventVocabulary ∧
    eventVocabulary.Nodup ∧
    eventVocabulary.length = 19 ∧
    ev ∈ Event.kinds ev.Value ∧
    ev.Name ∈ eventVocabulary ∧
    (∀ i : Fin 19, ((Event.kinds V).get (i.cast (by rfl))).Name
        = ((Event.kinds W).get (i.cast (by rfl))).Name) ∧
    (ev.Name = ev2.Name →
      ∃ i : Fin 19, ev = (Event.kinds ev.Value).get (i.cast (by rfl)) ∧
        ev2 = (Event.kinds ev2.Value).get (i.cast (by rfl))) := by
  refine ⟨rfl, rfl, by decide, rfl, ?_, ?_, ?_, ?_⟩
  · cases ev <;> simp [Event.kinds, Event.Value]
  · cases ev <;>
      simp [Event.Name, eventVocabulary, ConnectOperation, ReadOperation, WriteOperation,
        ReadFromOperation, WriteToOperation]
  · intro i
    fin_cases i <;> rfl
  · intro h
    cases ev <;> cases ev2 <;>
      first
      | (exfalso; revert h
         simp [Event.Name, ConnectOperation, ReadOperation, WriteOperation,
           ReadFromOperation, WriteToOperation]; done)
      | exact ⟨0, rfl, rfl⟩ | exact ⟨1, rfl, rfl⟩ | exact ⟨2, rfl, rfl⟩ | exact ⟨3, rfl, rfl⟩
      | exact ⟨4, rfl, rfl⟩ | exact ⟨5, rfl, rfl⟩ | exact ⟨6, rfl, rfl⟩ | exact ⟨7, rfl, rfl⟩
      | exact ⟨8, rfl, rfl⟩ | exact ⟨9, rfl, rfl⟩ | exact ⟨10, rfl, rfl⟩ | exact ⟨11, rfl, rfl⟩
      | exact ⟨12, rfl, rfl⟩ | exact ⟨13, rfl, rfl⟩ | exact ⟨14, rfl, rfl⟩ | exact ⟨15, rfl, rfl⟩
      | exact ⟨16, rfl, rfl⟩ | exact ⟨17, rfl, rfl⟩ | exact ⟨18, rfl, rfl⟩

/-- C4, witness: two connect events with different payloads have the same
name and are of the same kind. -/
theorem Event_Name_vocabulary_witness :
    (Event.EventConnectOperation {}).Name
      = (Event.EventConnectOperation { Address := "1.1.1.1:443" }).Name ∧
    ∃ i : Fin 19,
      Event.EventConnectOperation {}
        = (Event.kinds (Event.EventConnectOperation {}).Value).get (i.cast (by rfl)) ∧
      Event.EventConnectOperation { Address := "1.1.1.1:443" }
        = (Event.kinds (Event.EventConnectOperation { Address := "1.1.1.1:443" }).Value).get
            (i.cast (by rfl)) :=
  ⟨rfl, (Event_Name_vocabulary {} {} (Event.EventConnectOperation {})
    (Event.EventConnectOperation { Address := "1.1.1.1:443" })).2.2.2.2.2.2.2 rfl⟩

/-! ## C6 -/

/-- C6: the resolver of the `oohelperd` HTTP and HTTP3 client factories is the
bogon-wrapped resolver, and whenever the inner resolver succeeds with a list
that holds a bogon at any position, the resolution returns no addresses and
fails with the error whose failure is `dns_bogon_error`. -/
theorem bogonResolver_fails_on_bogon (isBogon : String → Bool) (newResolver : Resolver)
    (hostname : String) (addrs : List String)
    (hok : newResolver hostname = Except.ok addrs)
    (hbogon : ∃ a ∈ addrs, isBogon a = true) :
    NewHTTPClientResolver isBogon newResolver = bogonResolver isBogon newResolver ∧
    NewHTTP3ClientResolver isBogon newResolver = bogonResolver isBogon newResolver ∧
    NewHTTPClientResolver isBogon newResolver hostname = Except.error ErrDNSBogon ∧
    NewHTTP3ClientResolver isBogon newResolver hostname = Except.error ErrDNSBogon ∧
    ∃ operation wrapped, ErrDNSBogon = GoError.ErrWrapper "dns_bogon_error" operation wrapped := by
  have hany : addrs.any isBogon = true := by
    rcases hbogon with ⟨a, ha, hb⟩
    exact List.any_eq_true.mpr ⟨a, ha, hb⟩
  have hres : bogonResolver isBogon newResolver hostname = Except.error ErrDNSBogon := by
    simp [bogonResolver, hok, hany]
  refine ⟨rfl, rfl, hres, hres, ResolveOperation, GoError.other "dns: detected bogon address" false, ?_⟩
  have hcode : FailureDNSBogonError = "dns_bogon_error" := by decide
  simp [ErrDNSBogon, hcode]

/-- C6, witness: the answer `["93.184.216.34", "127.0.0.1"]` fails although its
first address is routable. -/
theorem bogonResolver_fails_on_bogon_witness :
    (∃ a ∈ ["93.184.216.34", "127.0.0.1"], isBogonIPv4 a = true) ∧
    isBogonIPv4 "93.184.216.34" = false ∧
    NewHTTPClientResolver isBogonIPv4 (fun _ => Except.ok ["93.184.216.34", "127.0.0.1"])
      "example.com" = Except.error ErrDNSBogon :=
  ⟨⟨"127.0.0.1", by decide, by decide⟩, by decide,
   (bogonResolver_fails_on_bogon isBogonIPv4 (fun _ => Except.ok ["93.184.216.34", "127.0.0.1"])
      "example.com" ["93.184.216.34", "127.0.0.1"] rfl
      ⟨"127.0.0.1", by decide, by decide⟩).2.2.1⟩

/-! ## C7 -/

/-- C7: when the inner resolver fails, or succeeds with a list that holds no
bogon, the bogon-wrapped resolver returns exactly what the inner resolver
returned: the same failure, or the same list of addresses in the same order. -/
theorem bogonResolver_passes_through (isBogon : String → Bool) (inner : Resolver)
    (hostname : String)
    (hclean : ∀ addrs, inner hostname = Except.ok addrs → ∀ a ∈ addrs, isBogon a = false) :
    MaybeWrapWithBogonResolver isBogon true inner hostname = inner hostname ∧
    (∀ addrs, inner hostname = Except.ok addrs →
      MaybeWrapWithBogonResolver isBogon true inner hostname = Except.ok addrs) ∧
    (∀ e, inner hostname = Except.error e →
      MaybeWrapWithBogonResolver isBogon true inner hostname = Except.error e) := by
  have key : MaybeWrapWithBogonResolver isBogon true inner hostname = inner hostname := by
    cases h : inner hostname with
    | error e => simp [MaybeWrapWithBogonResolver, bogonResolver, h]
    | ok addrs =>
      have hany : addrs.any isBogon = false := by
        rw [List.any_eq_false]
        intro a ha
        simp [hclean addrs h a ha]
      simp [MaybeWrapWithBogonResolver, bogonResolver, h, hany]
  exact ⟨key, fun addrs h => by rw [key, h], fun e h => by rw [key, h]⟩

/-- C7, witness: the answer `["93.184.216.34", "8.8.8.8"]` passes through with
both addresses in the original order, and a failure of the inner resolver is
returned unchanged. -/
theorem bogonResolver_passes_through_witness :
    MaybeWrapWithBogonResolver isBogonIPv4 true
        (fun _ => Except.ok ["93.184.216.34", "8.8.8.8"]) "example.com"
      = Except.ok ["93.184.216.34", "8.8.8.8"] ∧
    MaybeWrapWithBogonResolver isBogonIPv4 true
        (fun _ => Except.error (GoError.other "no such host" false)) "example.com"
      = Except.error (GoError.other "no such host" false) :=
  ⟨(bogonResolver_passes_through isBogonIPv4 (fun _ => Except.ok ["93.184.216.34", "8.8.8.8"])
      "example.com" (by
        intro addrs h a ha
        have h2 : ["93.184.216.34", "8.8.8.8"] = addrs := by simpa using h
        subst h2
        revert a
        decide)).2.1 ["93.184.216.34", "8.8.8.8"] rfl,
   (bogonResolver_passes_through isBogonIPv4
      (fun _ => Except.error (GoError.other "no such host" false)) "example.com"
      (by intro addrs h; simp at h)).2.2 (GoError.other "no such host" false) rfl⟩

/-! ## C8 -/

/-- Every error is itself under `errors.Is`. -/
theorem GoError.errorsIs_self (e : GoError) : GoError.errorsIs e e = true := by
  cases e <;> simp [GoError.errorsIs]

/-- The classification of `io.EOF` is `eof_error` on every platform. -/
theorem classifyOrFallback_EOF (sys : String → String → Nat) (kind : String) :
    classifyOrFallback sys kind GoError.EOF = "eof_error" := by
  have h1 : classifySyscallError sys kind (some GoError.EOF) = some "" := by
    rw [classifySyscallError_eq]
    rfl
  have h2 : GoError.errorsIs GoError.Canceled GoError.EOF = false := by decide
  have h3 : FailureEOFError = "eof_error" := by decide
  simp [classifyOrFallback, Classify, h1, h2, libraryFailure, h3]

/-- C9: when the inner handshaker fails with `e`, the error-wrapping handshaker
returns a nil connection and an `ErrWrapper` whose wrapped error is `e`, so
that the returned error still is `e` under `errors.Is`, whose operation is the
TLS-handshake operation and whose failure is the code that classification
assigns to `e`; that code is `eof_error` for `io.EOF`. -/
theorem ErrorWrapperTLSHandshaker_failure (sys : String → String → Nat) (kind : String)
    (inner : TLSHandshaker) (conn : Conn) (config : TLSConfig) (e : GoError)
    (hfail : (inner conn config).err = some e) :
    (ErrorWrapperTLSHandshaker sys kind inner conn config).conn = none ∧
    (ErrorWrapperTLSHandshaker sys kind inner conn config).err
      = some (GoError.ErrWrapper (classifyOrFallback sys kind e) TLSHandshakeOperation e) ∧
    (∀ w, (ErrorWrapperTLSHandshaker sys kind inner conn config).err = some w →
      GoError.errorsIs e w = true) ∧
    classifyOrFallback sys kind GoError.EOF = "eof_error" := by
  have herr : (ErrorWrapperTLSHandshaker sys kind inner conn config).err
      = some (GoError.ErrWrapper (classifyOrFallback sys kind e) TLSHandshakeOperation e) := by
    simp [ErrorWrapperTLSHandshaker, hfail]
  refine ⟨by simp [ErrorWrapperTLSHandshaker, hfail], herr, ?_, classifyOrFallback_EOF sys kind⟩
  intro w hw
  rw [herr] at hw
  cases hw
  simp [GoError.errorsIs, GoError.errorsIs_self]

/-- C9, witness: the mock handshaker of the test, which returns `io.EOF`. -/
theorem ErrorWrapperTLSHandshaker_failure_witness :
    (ErrorWrapperTLSHandshaker linuxSys "unix"
        (fun _ _ => { conn := none, state := {}, err := some GoError.EOF })
        { RemoteAddr := "" } {}).conn = none ∧
    (ErrorWrapperTLSHandshaker linuxSys "unix"
        (fun _ _ => { conn := none, state := {}, err := some GoError.EOF })
        { RemoteAddr := "" } {}).err
      = some (GoError.ErrWrapper "eof_error" TLSHandshakeOperation GoError.EOF) := by
  have h := ErrorWrapperTLSHandshaker_failure linuxSys "unix"
    (fun _ _ => { conn := none, state := {}, err := some GoError.EOF })
    { RemoteAddr := "" } {} GoError.EOF rfl
  refine ⟨h.1, ?_⟩
  rw [h.2.1, h.2.2.2]

/-! ## C10 -/

/-- An error that is an `x509.HostnameError` under `errors.Is` carries the certificate of that
error. -/
theorem verificationCert_of_HostnameError (cert : Certificate) (e : GoError)
    (h : GoError.errorsIs (GoError.HostnameError cert) e = true) :
    verificationCert e = some cert := by
  induction e with
  | wrapped msg err ih =>
    simp only [GoError.errorsIs, Bool.or_eq_true, beq_iff_eq] at h
    rcases h with h | h
    · cases h
    · simpa [verificationCert] using ih h
  | ErrWrapper f o err ih =>
    simp only [GoError.errorsIs, Bool.or_eq_true, beq_iff_eq] at h
    rcases h with h | h
    · cases h
    · simpa [verificationCert] using ih h
  | HostnameError c => simpa [GoError.errorsIs, verificationCert] using h
  | _ => simp [GoError.errorsIs] at h

/-- An error that is an `x509.UnknownAuthorityError` under `errors.Is` carries the certificate of that
error. -/
theorem verificationCert_of_UnknownAuthorityError (cert : Certificate) (e : GoError)
    (h : GoError.errorsIs (GoError.UnknownAuthorityError cert) e = true) :
    verificationCert e = some cert := by
  induction e with
  | wrapped msg err ih =>
    simp only [GoError.errorsIs, Bool.or_eq_true, beq_iff_eq] at h
    rcases h with h | h
    · cases h
    · simpa [verificationCert] using ih h
  | ErrWrapper f o err ih =>
    simp only [GoError.errorsIs, Bool.or_eq_true, beq_iff_eq] at h
    rcases h with h | h
    · cases h
    · simpa [verificationCert] using ih h
  | UnknownAuthorityError c => simpa [GoError.errorsIs, verificationCert] using h
  | _ => simp [GoError.errorsIs] at h

/-- An error that is an `x509.CertificateInvalidError` under `errors.Is` carries the certificate of that
error. -/
theorem verificationCert_of_CertificateInvalidError (cert : Certificate) (e : GoError)
    (h : GoError.errorsIs (GoError.CertificateInvalidError cert) e = true) :
    verificationCert e = some cert := by
  induction e with
  | wrapped msg err ih =>
    simp only [GoError.errorsIs, Bool.or_eq_true, beq_iff_eq] at h
    rcases h with h | h
    · cases h
    · simpa [verificationCert] using ih h
  | ErrWrapper f o err ih =>
    simp only [GoError.errorsIs, Bool.or_eq_true, beq_iff_eq] at h
    rcases h with h | h
    · cases h
    · simpa [verificationCert] using ih h
  | CertificateInvalidError c => simpa [GoError.errorsIs, verificationCert] using h
  | _ => simp [GoError.errorsIs] at h

/-- C10: after a handshake through the Saver-wrapped handshaker on a fresh
Saver, successful or failed, the log holds exactly one `tls_handshake_done`
event, and every such event has its `NoTLSVerify` flag equal to
`InsecureSkipVerify` of the config. When the handshake failed on certificate
verification, with an error that is a hostname error, a certificate-invalid
error (such as an expired certificate) or an unknown-authority error for the
certificate that the peer presented, the event carries that certificate; when
the handshake succeeded, the event carries the chain of the connection state;
so it carries at least one certificate whenever the peer presented one. -/
theorem SaverTLSHandshaker_done_metadata (sys : String → String → Nat) (kind : String)
    (inner : TLSHandshaker) (start : Time) (elapsed : Nat) (conn : Conn) (config : TLSConfig)
    (ev : Event)
    (hmem : ev ∈ (SaverTLSHandshaker sys kind inner {} start elapsed conn config).1.Read)
    (hname : ev.Name = "tls_handshake_done") :
    ((SaverTLSHandshaker sys kind inner {} start elapsed conn config).1.Read.filter
      (fun x => x.Name = "tls_handshake_done")) = [ev] ∧
    ev.Value.NoTLSVerify = config.InsecureSkipVerify ∧
    (∀ e cert, (inner conn config).err = some e →
      (GoError.errorsIs (GoError.HostnameError cert) e = true ∨
        GoError.errorsIs (GoError.CertificateInvalidError cert) e = true ∨
        GoError.errorsIs (GoError.UnknownAuthorityError cert) e = true) →
      ev.Value.TLSPeerCerts = some [cert] ∧ 1 ≤ (ev.Value.TLSPeerCerts.getD []).length) ∧
    (∀ cert certs, (inner conn config).err = none →
      (inner conn config).state.PeerCertificates = some (cert :: certs) →
      ev.Value.TLSPeerCerts = some (cert :: certs) ∧
        1 ≤ (ev.Value.TLSPeerCerts.getD []).length) := by
  simp only [SaverTLSHandshaker, Saver.Read, Saver.Append, List.nil_append, List.cons_append,
    List.mem_cons, List.mem_singleton, List.mem_nil_iff, or_false] at hmem
  rcases hmem with h | h
  · subst h
    simp [Event.Name] at hname
  · subst h
    refine ⟨?_, rfl, ?_, ?_⟩
    · simp [SaverTLSHandshaker, Saver.Read, Saver.Append, Event.Name, List.filter]
    · intro e cert he hc
      have hv : verificationCert e = some cert := by
        rcases hc with hc | hc | hc
        · exact verificationCert_of_HostnameError cert e hc
        · exact verificationCert_of_CertificateInvalidError cert e hc
        · exact verificationCert_of_UnknownAuthorityError cert e hc
      simp [Event.Value, tlsPeerCerts, he, hv]
    · intro cert certs he hc
      simp [Event.Value, tlsPeerCerts, he, hc]

/-- C10, witness: a handshake with `wrong.host.badssl.com` fails on the
hostname check, with the error wrapped by the TLS library: the done event of
the log has `NoTLSVerify` false and carries the certificate of the peer. With
`InsecureSkipVerify` set the handshake with `self-signed.badssl.com` succeeds
and the done event has `NoTLSVerify` true and carries the chain. -/
theorem SaverTLSHandshaker_done_metadata_witness :
    (∃ ev ∈ (SaverTLSHandshaker linuxSys "unix"
          (fun _ _ => { conn := none, state := {},
                        err := some (GoError.wrapped "tls: failed to verify certificate"
                          (GoError.HostnameError { Raw := [48, 130] })) })
          {} { ns := 3 } 7 { RemoteAddr := "104.154.89.105:443" }
          { ServerName := "wrong.host.badssl.com" }).1.Read,
      ev.Name = "tls_handshake_done" ∧ ev.Value.NoTLSVerify = false ∧
      ev.Value.TLSPeerCerts = some [{ Raw := [48, 130] }]) ∧
    (∃ ev ∈ (SaverTLSHandshaker linuxSys "unix"
          (fun c _ => { conn := some c,
                        state := { PeerCertificates := some [{ Raw := [48, 131] }] },
                        err := none })
          {} { ns := 3 } 7 { RemoteAddr := "104.154.89.105:443" }
          { ServerName := "self-signed.badssl.com", InsecureSkipVerify := true }).1.Read,
      ev.Name = "tls_handshake_done" ∧ ev.Value.NoTLSVerify = true ∧
      1 ≤ (ev.Value.TLSPeerCerts.getD []).length) := by
  have h1 := SaverTLSHandshaker_done_metadata linuxSys "unix"
    (fun _ _ => { conn := none, state := {},
                  err := some (GoError.wrapped "tls: failed to verify certificate"
                    (GoError.HostnameError { Raw := [48, 130] })) })
    { ns := 3 } 7 { RemoteAddr := "104.154.89.105:443" } { ServerName := "wrong.host.badssl.com" }
    (Event.EventTLSHandshakeDone {
      Duration := 7,
      Err := some (GoError.ErrWrapper "ssl_invalid_hostname" TLSHandshakeOperation
        (GoError.wrapped "tls: failed to verify certificate"
          (GoError.HostnameError { Raw := [48, 130] }))),
      TLSPeerCerts := some [{ Raw := [48, 130] }],
      TLSServerName := "wrong.host.badssl.com", Time := { ns := 10 } })
    (by decide) rfl
  have h2 := SaverTLSHandshaker_done_metadata linuxSys "unix"
    (fun c _ => { conn := some c,
                  state := { PeerCertificates := some [{ Raw := [48, 131] }] },
                  err := none })
    { ns := 3 } 7 { RemoteAddr := "104.154.89.105:443" }
    { ServerName := "self-signed.badssl.com", InsecureSkipVerify := true }
    (Event.EventTLSHandshakeDone {
      Duration := 7, NoTLSVerify := true,
      TLSPeerCerts := some [{ Raw := [48, 131] }],
      TLSServerName := "self-signed.badssl.com", Time := { ns := 10 } })
    (by decide) rfl
  exact ⟨⟨Event.EventTLSHandshakeDone {
        Duration := 7,
        Err := some (GoError.ErrWrapper "ssl_invalid_hostname" TLSHandshakeOperation
          (GoError.wrapped "tls: failed to verify certificate"
            (GoError.HostnameError { Raw := [48, 130] }))),
        TLSPeerCerts := some [{ Raw := [48, 130] }],
        TLSServerName := "wrong.host.badssl.com", Time := { ns := 10 } },
      by decide, rfl, h1.2.1,
      (h1.2.2.1 _ { Raw := [48, 130] } rfl (Or.inl (by decide))).1⟩,
    ⟨Event.EventTLSHandshakeDone {
        Duration := 7, NoTLSVerify := true,
        TLSPeerCerts := some [{ Raw := [48, 131] }],
        TLSServerName := "self-signed.badssl.com", Time := { ns := 10 } },
      by decide, rfl, h2.2.1, (h2.2.2.2 { Raw := [48, 131] } [] rfl rfl).2⟩⟩

/-! ## C5 -/

/-- Unmarshalling the member of one field: nothing when the field was omitted,
one store otherwise. -/
theorem foldlM_entry {J : Type} (cs : ValueCodecs J) (acc : EventValue) (name : String)
    (empty : Bool) (j : J) :
    List.foldlM (storeField cs) acc (if empty = true then [] else [(name, j)])
      = if empty = true then some acc else storeField cs acc (name, j) := by
  cases empty <;> simp

/-- The member `Err` is stored into the field `Err`; when it was omitted
the field keeps its zero value. -/
theorem store_Err {J : Type} (cs : ValueCodecs J) (acc : EventValue) (empty : Bool) (j : J)
    (y : Option GoError) (hdec : empty = false → cs.error.dec j = some y)
    (hy : empty = true → y = none) (hacc : acc.Err = none) :
    List.foldlM (storeField cs) acc (if empty = true then [] else [("Err", j)])
      = some { acc with Err := y } := by
  rw [foldlM_entry]
  cases empty
  · simp [storeField, hdec rfl]
  · rw [if_pos rfl, hy rfl, ← hacc]

/-- A lower-case letter is no capital, no digit, no separator and no space. -/
theorem isLow_facts (c : Char) (h : strcase.isLow c = true) :
    strcase.isCap c = false ∧ strcase.isNum c = false ∧ strcase.isSep c = false ∧
    strcase.isSpace c = false := by
  have hsep : strcase.isSep c = false := by
    by_contra hne
    simp only [strcase.isSep, Bool.not_eq_false, Bool.or_eq_true, beq_iff_eq] at hne
    rcases hne with ((rfl | rfl) | rfl) | rfl <;> exact absurd h (by decide)
  have hspace : strcase.isSpace c = false := by
    by_contra hne
    simp only [strcase.isSpace, Bool.not_eq_false, Bool.or_eq_true, beq_iff_eq] at hne
    rcases hne with ((((rfl | rfl) | rfl) | rfl) | rfl) | rfl <;> exact absurd h (by decide)
  refine ⟨?_, ?_, hsep, hspace⟩
  · simp only [strcase.isLow, strcase.isCap,
      Bool.and_eq_true, decide_eq_true_eq, Char.le_def, UInt32.le_def, BitVec.le_def,
      Bool.and_eq_false_iff, decide_eq_false_iff_not] at *
    have h1 : 'a'.val.toBitVec.toNat = 97 := by decide
    have h2 : 'Z'.val.toBitVec.toNat = 90 := by decide
    rw [h1] at h
    rw [h2]
    omega
  · simp only [strcase.isLow, strcase.isNum,
      Bool.and_eq_true, decide_eq_true_eq, Char.le_def, UInt32.le_def, BitVec.le_def,
      Bool.and_eq_false_iff, decide_eq_false_iff_not] at *
    have h1 : 'a'.val.toBitVec.toNat = 97 := by decide
    have h2 : '9'.val.toBitVec.toNat = 57 := by decide
    rw [h1] at h
    rw [h2]
    omega

/-- A character of a lower snake name passes through the loop of `ToSnake`
as it is. -/
theorem snakeChar_facts (c : Char) (h : strcase.isLow c = true ∨ c = '_') :
    strcase.isCap c = false ∧ strcase.isNum c = false ∧ strcase.isSpace c = false ∧
    (if strcase.isSep c = true then ['_'] else [c]) = [c] := by
  rcases h with h | rfl
  · obtain ⟨h1, h2, h3, h4⟩ := isLow_facts c h
    exact ⟨h1, h2, h4, by simp [h3]⟩
  · exact ⟨by decide, by decide, by decide, by decide⟩

/-- The loop of `ToSnake` returns a lower snake name unchanged. -/
theorem delimitedLoop_lowerSnake (prev : Option Char) (l : List Char)
    (h : ∀ c ∈ l, strcase.isLow c = true ∨ c = '_') :
    strcase.delimitedLoop '_' false prev l = l := by
  induction l generalizing prev with
  | nil => rfl
  | cons v0 rest ih =>
    obtain ⟨hc, hn, _, hp⟩ := snakeChar_facts v0 (h v0 (List.mem_cons_self _ _))
    have ih2 := ih (some v0) (fun c hc => h c (List.mem_cons_of_mem _ hc))
    cases rest with
    | nil =>
      rw [strcase.delimitedLoop, ih2]
      simp [hc, hp]
    | cons next rest2 =>
      obtain ⟨hc2, hn2, _, _⟩ := snakeChar_facts next (h next (by simp))
      conv_lhs => unfold strcase.delimitedLoop
      simp [hc, hn, hc2, hn2, hp, ih2]

/-- A lower snake name has no white space to trim. -/
theorem trimSpace_lowerSnake (l : List Char)
    (h : ∀ c ∈ l, strcase.isLow c = true ∨ c = '_') : strcase.trimSpace l = l := by
  have hdrop : ∀ m : List Char, (∀ c ∈ m, strcase.isSpace c = false) →
      m.dropWhile strcase.isSpace = m := by
    intro m hm
    cases m with
    | nil => rfl
    | cons a t => simp [List.dropWhile, hm a (List.mem_cons_self _ _)]
  have hl : ∀ c ∈ l, strcase.isSpace c = false := fun c hc => (snakeChar_facts c (h c hc)).2.2.1
  unfold strcase.trimSpace
  rw [hdrop l hl, hdrop l.reverse (fun c hc => hl c (List.mem_reverse.mp hc)), List.reverse_reverse]

/-- The function `ToSnake` returns a lower snake name unchanged. -/
theorem ToSnake_lowerSnake (name : String) (h : isLowerSnake name = true) :
    strcase.ToSnake name = name := by
  have hl : ∀ c ∈ name.data, strcase.isLow c = true ∨ c = '_' := by
    intro c hc
    have := List.all_eq_true.mp h c hc
    simpa using this
  unfold strcase.ToSnake
  rw [trimSpace_lowerSnake _ hl, delimitedLoop_lowerSnake _ _ hl]

/-- C11: for every entry of `Specs`, `AsFailureString` is the all-lower-case
form of the failure name of the entry; the acronyms written in upper case in
the table yield the codes that the spec names; a failure name already in lower
snake case is returned unchanged, for any `ErrorSpec`; and every code that the
spec enumerates is the `AsFailureString` of an entry of `Specs`. -/
theorem AsFailureString_lowerSnake :
    (∀ s ∈ Specs, s.AsFailureString = lowerSnake s.failure) ∧
    (∀ f ∈ ["DNS_bogon_error", "DNS_NXDOMAIN_error", "EOF_error", "SSL_invalid_hostname",
        "QUIC_incompatible_version", "JSON_parse_error"], NewLibraryError f ∈ Specs) ∧
    [NewLibraryError "DNS_bogon_error", NewLibraryError "DNS_NXDOMAIN_error",
      NewLibraryError "EOF_error", NewLibraryError "SSL_invalid_hostname",
      NewLibraryError "QUIC_incompatible_version",
      NewLibraryError "JSON_parse_error"].map ErrorSpec.AsFailureString
      = ["dns_bogon_error", "dns_nxdomain_error", "eof_error", "ssl_invalid_hostname",
         "quic_incompatible_version", "json_parse_error"] ∧
    (∀ es : ErrorSpec, isLowerSnake es.failure = true → es.AsFailureString = es.failure) ∧
    (∀ s ∈ Specs, s.IsSystemError = true → s.AsFailureString = s.failure) ∧
    (∀ c ∈ specFailureCodes, ∃ s ∈ Specs, s.AsFailureString = c) := by
  refine ⟨by decide, by decide, by decide, ?_, ?_, by decide⟩
  · intro es h
    exact ToSnake_lowerSnake es.failure h
  · intro s hs hsys
    have hl : ∀ t ∈ Specs, t.IsSystemError = true → isLowerSnake t.failure = true := by decide
    exact ToSnake_lowerSnake s.failure (hl s hs hsys)

/-- C11, witness: `timed_out` is in lower snake case and is returned unchanged. -/
theorem AsFailureString_lowerSnake_witness :
    isLowerSnake (NewSystemError "ETIMEDOUT" "timed_out").failure = true ∧
    (NewSystemError "ETIMEDOUT" "timed_out").AsFailureString = "timed_out" :=
  ⟨by decide, AsFailureString_lowerSnake.2.2.2.1 (NewSystemError "ETIMEDOUT" "timed_out")
    (by decide)⟩

/-! ## C13 -/

/-- C13: `SetTTL` returns `errInvalidConnWrapper` when the wrapped connection
is not a TCP connection and the error of `SyscallConn` itself when that call
fails; otherwise, when `Control` ran the callback, it returns the error of
`setsockopt` when that is not nil and the error of `Control` otherwise, hence
nil exactly when both are nil; when `Control` did not run the callback it
returns the error of `Control`. -/
theorem SetTTL_error_priority (errInvalidConnWrapper : GoError)
    (SetsockoptInt : Nat → String → String → Int → Option GoError) (ttl : Int) :
    (∀ network, dialerTTLWrapperConn.SetTTL errInvalidConnWrapper SetsockoptInt
        { Conn := NetConn.other network } ttl = some errInvalidConnWrapper) ∧
    (∀ e, dialerTTLWrapperConn.SetTTL errInvalidConnWrapper SetsockoptInt
        { Conn := NetConn.tcp { SyscallConn := Except.error e } } ttl = some e) ∧
    (∀ fd e2, dialerTTLWrapperConn.SetTTL errInvalidConnWrapper SetsockoptInt
        { Conn := NetConn.tcp { SyscallConn :=
            (Except.ok (RawConn.mk fd true e2)) } } ttl
      = match SetsockoptInt fd "IPPROTO_IP" "IP_TTL" ttl with
        | some e1 => some e1
        | none => e2) ∧
    (∀ fd e2, dialerTTLWrapperConn.SetTTL errInvalidConnWrapper SetsockoptInt
        { Conn := NetConn.tcp { SyscallConn :=
            (Except.ok (RawConn.mk fd true e2)) } } ttl = none
      ↔ SetsockoptInt fd "IPPROTO_IP" "IP_TTL" ttl = none ∧ e2 = none) ∧
    (∀ fd e2, dialerTTLWrapperConn.SetTTL errInvalidConnWrapper SetsockoptInt
        { Conn := NetConn.tcp { SyscallConn :=
            (Except.ok (RawConn.mk fd false e2)) } } ttl = e2) := by
  refine ⟨fun _ => rfl, fun _ => rfl, fun _ _ => rfl, ?_, fun _ _ => rfl⟩
  intro fd e2
  simp only [dialerTTLWrapperConn.SetTTL, RawConn.Control, if_true]
  cases h : SetsockoptInt fd "IPPROTO_IP" "IP_TTL" ttl <;> simp

/-- C13, witness: `setsockopt` fails with `EINVAL` (22) while `Control` fails
with `EBADF` (9): the error of `setsockopt` wins; when `setsockopt` succeeds
the error of `Control` is returned. -/
theorem SetTTL_error_priority_witness :
    dialerTTLWrapperConn.SetTTL (GoError.other "invalid conn wrapper" false)
        (fun _ _ _ _ => some (GoError.errno 22))
        { Conn := NetConn.tcp { SyscallConn :=
            (Except.ok (RawConn.mk 3 true (some (GoError.errno 9)))) } } 64
      = some (GoError.errno 22) ∧
    dialerTTLWrapperConn.SetTTL (GoError.other "invalid conn wrapper" false)
        (fun _ _ _ _ => none)
        { Conn := NetConn.tcp { SyscallConn :=
            (Except.ok (RawConn.mk 3 true (some (GoError.errno 9)))) } } 64
      = some (GoError.errno 9) :=
  ⟨(SetTTL_error_priority (GoError.other "invalid conn wrapper" false)
      (fun _ _ _ _ => some (GoError.errno 22)) 64).2.2.1 3 (some (GoError.errno 9)),
   (SetTTL_error_priority (GoError.other "invalid conn wrapper" false)
      (fun _ _ _ _ => none) 64).2.2.1 3 (some (GoError.errno 9))⟩

/-! ## C14 -/

/-- The assertions of `errno_test.go` cover the system errors in table order. -/
theorem testAsserts_eq (specs : List ErrorSpec) :
    testAsserts specs
      = some ((specs.filter (fun s => s.IsSystemError)).map
          (fun s => { arg := s.errno, expect := s.AsFailureVar })) := by
  induction specs with
  | nil => rfl
  | cons s rest ih =>
    by_cases h : s.IsSystemError = true
    · simp [testAsserts, ErrorSpec.AsErrnoName, h, ih]
    · simp [testAsserts, h, ih]

/-- C14: `AsErrnoName` panics exactly when the spec is not a system error and
returns the errno name unchanged otherwise; `IsSystemError` holds exactly when
the errno name is not empty, so no spec built by `NewLibraryError` is a system
error and a spec built by `NewSystemError` is one exactly when its errno name
is not empty; the loops of the three generators, which call `AsErrnoName` only
behind the `IsSystemError` filter, do not panic on any table, in particular
not on `Specs`. -/
theorem AsErrnoName_panics_iff (es : ErrorSpec) (errno failure kind : String)
    (specs : List ErrorSpec) :
    (es.AsErrnoName = none ↔ es.IsSystemError = false) ∧
    (es.IsSystemError = true → es.AsErrnoName = some es.errno) ∧
    (es.IsSystemError = true ↔ es.errno ≠ "") ∧
    (NewLibraryError failure).IsSystemError = false ∧
    ((NewSystemError errno failure).IsSystemError = true ↔ errno ≠ "") ∧
    (systemSpecificConsts kind specs).isSome = true ∧
    (switchCases specs).isSome = true ∧
    (testAsserts specs).isSome = true ∧
    (writeSystemSpecificFile kind).isSome = true ∧
    writeGenericFile.isSome = true ∧
    writeGenericTestFile.isSome = true := by
  refine ⟨?_, ?_, ?_, ?_, ?_, ?_, ?_, ?_, ?_, ?_, ?_⟩
  · cases h : es.IsSystemError <;> simp [ErrorSpec.AsErrnoName, h]
  · intro h
    simp [ErrorSpec.AsErrnoName, h]
  · simp [ErrorSpec.IsSystemError]
  · simp [NewLibraryError, ErrorSpec.IsSystemError]
  · simp [NewSystemError, ErrorSpec.IsSystemError]
  · rw [systemSpecificConsts_eq]; rfl
  · rw [switchCases_eq]; rfl
  · rw [testAsserts_eq]; rfl
  · rw [writeSystemSpecificFile, systemSpecificConsts_eq]; rfl
  · simp [writeGenericFile, switchCases_eq]
  · rw [writeGenericTestFile, testAsserts_eq]; rfl

/-- C14, witness: `ECONNREFUSED` is a system error and has its errno name; the
library error `EOF_error` is none and asking for its errno name panics. -/
theorem AsErrnoName_panics_iff_witness :
    (NewSystemError "ECONNREFUSED" "connection_refused").IsSystemError = true ∧
    (NewSystemError "ECONNREFUSED" "connection_refused").AsErrnoName = some "ECONNREFUSED" ∧
    (NewLibraryError "EOF_error").IsSystemError = false ∧
    (NewLibraryError "EOF_error").AsErrnoName = none :=
  ⟨by decide,
   (AsErrnoName_panics_iff (NewSystemError "ECONNREFUSED" "connection_refused") "" "" "" []).2.1
     (by decide),
   by decide,
   (AsErrnoName_panics_iff (NewLibraryError "EOF_error") "" "" "" []).1.mpr (by decide)⟩

/-! ## C15 -/

/-- C15: `GetSoErr` returns `(0, errInvalidConnWrapper)` when the wrapped
connection is not a TCP connection and also when `SyscallConn` fails, whatever
the error of `SyscallConn`; it returns `(0, r)` when `Control` returns the
error `r`, whether the callback ran or not; when `Control` returns nil it
returns the pair of `getsockopt` unchanged if the callback ran and `(0, nil)`
if not. So a non-zero errno is always the one of `getsockopt` after a
`Control` without error, and every returned error comes with errno 0 as long
as `getsockopt` itself returns 0 with its errors. -/
theorem GetSoErr_paths (errInvalidConnWrapper : GoError)
    (GetsockoptInt : Nat → String → String → Int × Option GoError) :
    (∀ network, dialerTTLWrapperConn.GetSoErr errInvalidConnWrapper GetsockoptInt
        { Conn := NetConn.other network } = (0, some errInvalidConnWrapper)) ∧
    (∀ e, dialerTTLWrapperConn.GetSoErr errInvalidConnWrapper GetsockoptInt
        { Conn := NetConn.tcp { SyscallConn := Except.error e } }
      = (0, some errInvalidConnWrapper)) ∧
    (∀ fd invokes r, dialerTTLWrapperConn.GetSoErr errInvalidConnWrapper GetsockoptInt
        { Conn := NetConn.tcp { SyscallConn := Except.ok (RawConn.mk fd invokes (some r)) } }
      = (0, some r)) ∧
    (∀ fd, dialerTTLWrapperConn.GetSoErr errInvalidConnWrapper GetsockoptInt
        { Conn := NetConn.tcp { SyscallConn := Except.ok (RawConn.mk fd true none) } }
      = GetsockoptInt fd "SOL_SOCKET" "SO_ERROR") ∧
    (∀ fd, dialerTTLWrapperConn.GetSoErr errInvalidConnWrapper GetsockoptInt
        { Conn := NetConn.tcp { SyscallConn := Except.ok (RawConn.mk fd false none) } }
      = (0, none)) ∧
    (∀ c, (dialerTTLWrapperConn.GetSoErr errInvalidConnWrapper GetsockoptInt c).1 ≠ 0 →
      ∃ fd, dialerTTLWrapperConn.GetSoErr errInvalidConnWrapper GetsockoptInt c
          = GetsockoptInt fd "SOL_SOCKET" "SO_ERROR") ∧
    ((∀ fd, (GetsockoptInt fd "SOL_SOCKET" "SO_ERROR").2 ≠ none →
        (GetsockoptInt fd "SOL_SOCKET" "SO_ERROR").1 = 0) →
      ∀ c, (dialerTTLWrapperConn.GetSoErr errInvalidConnWrapper GetsockoptInt c).2 ≠ none →
        (dialerTTLWrapperConn.GetSoErr errInvalidConnWrapper GetsockoptInt c).1 = 0) := by
  have hcases : ∀ c : dialerTTLWrapperConn,
      (dialerTTLWrapperConn.GetSoErr errInvalidConnWrapper GetsockoptInt c).1 = 0 ∨
      ∃ fd, dialerTTLWrapperConn.GetSoErr errInvalidConnWrapper GetsockoptInt c
          = GetsockoptInt fd "SOL_SOCKET" "SO_ERROR" := by
    rintro ⟨conn⟩
    rcases conn with ⟨⟨e | ⟨fd, invokes, _ | r⟩⟩⟩ | network
    · exact Or.inl rfl
    · cases invokes
      · exact Or.inl rfl
      · exact Or.inr ⟨fd, rfl⟩
    · exact Or.inl rfl
    · exact Or.inl rfl
  refine ⟨fun _ => rfl, fun _ => rfl, fun _ _ _ => rfl, fun _ => rfl, fun _ => rfl, ?_, ?_⟩
  · intro c hne
    rcases hcases c with h | h
    · exact absurd h hne
    · exact h
  · intro hsys c hne
    rcases hcases c with h | ⟨fd, h⟩
    · exact h
    · rw [h] at hne ⊢
      exact hsys fd hne

/-- C15, witness: `getsockopt` reads `ECONNREFUSED` (111) as the pending socket
error: with a `Control` that fails the errno is dropped and 0 is returned with
the error of `Control`; with a `Control` that succeeds the pair of
`getsockopt` is returned. With a `getsockopt` that returns 0 on failure, the
failure of `getsockopt` is returned with errno 0. -/
theorem GetSoErr_paths_witness :
    dialerTTLWrapperConn.GetSoErr (GoError.other "invalid conn wrapper" false)
        (fun _ _ _ => (111, none))
        { Conn := NetConn.tcp
            { SyscallConn := Except.ok (RawConn.mk 3 true (some (GoError.errno 9))) } }
      = (0, some (GoError.errno 9)) ∧
    dialerTTLWrapperConn.GetSoErr (GoError.other "invalid conn wrapper" false)
        (fun _ _ _ => (111, none))
        { Conn := NetConn.tcp { SyscallConn := Except.ok (RawConn.mk 3 true none) } }
      = (111, none) ∧
    (dialerTTLWrapperConn.GetSoErr (GoError.other "invalid conn wrapper" false)
        (fun _ _ _ => (0, some (GoError.errno 88)))
        { Conn := NetConn.tcp { SyscallConn := Except.ok (RawConn.mk 3 true none) } }).1
      = 0 :=
  ⟨(GetSoErr_paths (GoError.other "invalid conn wrapper" false)
      (fun _ _ _ => (111, none))).2.2.1 3 true (GoError.errno 9),
   (GetSoErr_paths (GoError.other "invalid conn wrapper" false)
      (fun _ _ _ => (111, none))).2.2.2.1 3,
   (GetSoErr_paths (GoError.other "invalid conn wrapper" false)
      (fun _ _ _ => (0, some (GoError.errno 88)))).2.2.2.2.2.2 (fun _ _ => rfl) _ (by simp [dialerTTLWrapperConn.GetSoErr, RawConn.Control])⟩

/-! ## C16 -/

/-- C16: for every platform kind the three generators succeed, and the names
of the errno constants of `errno_<kind>.go`, the case labels of the switch of
`errno.go` and the errnos asserted in `errno_test.go` are one and the same
list: the errno names of the system entries of `Specs` in table order, without
repetition. Each constant is declared as the constant of the same name of the
package `kind`; each case label is a declared constant and is the argument of
exactly one test assertion, which expects the failure variable that the case
returns; and the failure variable of every entry of `Specs` is declared once,
in the system section for a system error and in the library section
otherwise. -/
theorem generated_artifacts_agree (kind : String) :
    ∃ decls file asserts,
      writeSystemSpecificFile kind = some decls ∧
      writeGenericFile = some file ∧
      writeGenericTestFile = some asserts ∧
      decls.map (fun d => d.name)
        = (Specs.filter (fun s => s.IsSystemError)).map (fun s => s.errno) ∧
      file.cases.map (fun c => c.label)
        = (Specs.filter (fun s => s.IsSystemError)).map (fun s => s.errno) ∧
      asserts.map (fun a => a.arg)
        = (Specs.filter (fun s => s.IsSystemError)).map (fun s => s.errno) ∧
      ((Specs.filter (fun s => s.IsSystemError)).map (fun s => s.errno)).Nodup ∧
      (∀ d ∈ decls, d.pkg = kind ∧ d.sel = d.name) ∧
      file.cases.map (fun c => (c.label, c.result))
        = asserts.map (fun a => (a.arg, a.expect)) ∧
      (∀ c ∈ file.cases, ∃ d ∈ decls, d.name = c.label) ∧
      (∀ c ∈ file.cases, asserts.filter (fun a => a.arg = c.label)
        = [{ arg := c.label, expect := c.result }]) ∧
      file.consts = systemFailureConsts Specs ++ libraryFailureConsts Specs ∧
      (∀ s ∈ Specs,
        ((systemFailureConsts Specs).map (fun d => d.name)).count s.AsFailureVar
          = (if s.IsSystemError then 1 else 0) ∧
        ((libraryFailureConsts Specs).map (fun d => d.name)).count s.AsFailureVar
          = (if s.IsSystemError then 0 else 1)) := by
  have hnames : ((Specs.filter (fun s => s.IsSystemError)).map
      (fun s => ({ name := s.errno, pkg := kind, sel := s.errno } : ErrnoDecl))).map
        (fun d => d.name)
      = (Specs.filter (fun s => s.IsSystemError)).map (fun s => s.errno) := by
    rw [List.map_map]
    rfl
  have hfile : writeGenericFile = some
      { consts := systemFailureConsts Specs ++ libraryFailureConsts Specs,
        cases := (Specs.filter (fun s => s.IsSystemError)).map
          (fun s => { label := s.errno, result := s.AsFailureVar }) } := by
    simp [writeGenericFile, switchCases_eq]
  refine ⟨_, _, _, systemSpecificConsts_eq kind Specs, hfile, testAsserts_eq Specs, hnames,
    by decide, by decide, by decide, ?_, by decide, ?_, by decide, rfl, by decide⟩
  · intro d hd
    obtain ⟨s, _, rfl⟩ := List.mem_map.mp hd
    exact ⟨rfl, rfl⟩
  · intro c hc
    have hlabel : c.label ∈ (Specs.filter (fun s => s.IsSystemError)).map (fun s => s.errno) := by
      revert c
      decide
    rw [← hnames] at hlabel
    obtain ⟨d, hd, hdl⟩ := List.mem_map.mp hlabel
    exact ⟨d, hd, hdl⟩
end ProbeCli
